import Mathlib

/-!
Verification development for the discord-ebay-bot repository.

The repository consists of three Python scripts:

* `get_offers_every_hour.py` — polls eBay `GetBestOffers` page by page,
  extracts best-offer records, resolves SKUs, merges them into an Excel
  store keyed by `BestOfferID`, and sends Discord channel alerts.
* `get_offers_every_2_hours.py` — a near-duplicate of the ingestion part
  with different per-page failure handling.
* `send_ebay_offers_to_discord_channels.py` — a Discord bot that surfaces
  offers and responds to them (`Accept`/`Decline`/`Counter`) via
  `RespondToBestOffer`.

This file gives a shallow embedding of those scripts.  Machine floats of
Python are modelled as rational numbers (the scripts only ever parse
decimal literals, compare nothing, and print); the Excel store is
modelled as a list of records plus a trace of read/write events; remote
calls are modelled as function parameters describing the upstream's
behaviour; a raised Python exception is modelled as `Except.error`.
-/

/-! ## Python-style numeric and string parsing -/

deriving instance DecidableEq for Except

/-- Is `c` a decimal digit?  Used by the models of Python `float()` / `int()`. -/
def isDig (c : Char) : Bool := decide ('0' ≤ c ∧ c ≤ '9')

/-- Strip leading and trailing whitespace from a character list
(Python `str.strip()` with no arguments). -/
def stripChars (l : List Char) : List Char :=
  ((l.dropWhile Char.isWhitespace).reverse.dropWhile Char.isWhitespace).reverse

/-- Python `s.strip()`. -/
def pyStripStr (s : String) : String := String.mk (stripChars s.data)

/-- Python `s.lower()` (ASCII case folding; the scripts' SKUs and channel
names are ASCII). -/
def pyLowerStr (s : String) : String := String.mk (s.data.map Char.toLower)

/-- Numeric value of a digit list, most significant first (as `ℚ`). -/
def digitsVal (l : List Char) : ℚ :=
  l.foldl (fun acc c => 10 * acc + ((c.toNat - '0'.toNat : ℕ) : ℚ)) 0

/-- Numeric value of a digit list, most significant first (as `ℤ`). -/
def digitsValInt (l : List Char) : ℤ :=
  l.foldl (fun acc c => 10 * acc + ((c.toNat - '0'.toNat : ℕ) : ℤ)) 0

/-- Models Python `float(s)` on plain decimal literals: surrounding
whitespace is ignored, then an optional sign, an integer part and an
optional fractional part are accepted (at least one digit overall, as in
`"1."`, `".5"`, `"42.50"`).  `none` models a raised `ValueError`.
Scientific notation and the `inf`/`nan` spellings accepted by Python are
not modelled; no claim depends on them. -/
def pyFloat? (s : String) : Option ℚ :=
  let (sign, rest) :=
    match stripChars s.data with
    | '-' :: cs => ((-1 : ℚ), cs)
    | '+' :: cs => ((1 : ℚ), cs)
    | cs => ((1 : ℚ), cs)
  let intPart := rest.takeWhile isDig
  let rest2 := rest.drop intPart.length
  match rest2 with
  | [] =>
    if intPart.isEmpty then none
    else some (sign * digitsVal intPart)
  | '.' :: frac =>
    if frac.all isDig ∧ ¬ (intPart.isEmpty ∧ frac.isEmpty) then
      some (sign * (digitsVal intPart + digitsVal frac / (10 : ℚ) ^ frac.length))
    else none
  | _ => none

/-- Models Python `int(s)` on plain decimal integer literals: surrounding
whitespace ignored, optional sign, then at least one digit.  `none`
models a raised `ValueError` (note `int("1.5")` raises in Python, and so
does this model). -/
def pyInt? (s : String) : Option ℤ :=
  let (sign, rest) :=
    match stripChars s.data with
    | '-' :: cs => ((-1 : ℤ), cs)
    | '+' :: cs => ((1 : ℤ), cs)
    | cs => ((1 : ℤ), cs)
  if rest.isEmpty ∨ ¬ rest.all isDig then none
  else some (sign * digitsValInt rest)

/-- Models Python `str(x)` applied to an optional string: `str(None)` is
the literal string `"None"`. -/
def pyStr (s : Option String) : String :=
  match s with
  | some t => t
  | none => "None"

/-- Does the word character class of `re`'s `\w` contain `c`?  Modelled on
ASCII letters, digits and underscore (the SKUs routed by the scripts are
ASCII). -/
def isWordChar (c : Char) : Bool := c.isAlphanum || c = '_'

/-- `normalize_key` from `get_offers_every_hour.py`:
`re.sub(r'\W+', '', text.strip().lower())`. -/
def normalize_key (text : String) : String :=
  String.mk (((stripChars text.data).map Char.toLower).filter isWordChar)

/-- Does `pat` occur at the head of `hay`? (helper for substring search) -/
def leadingMatch : List Char → List Char → Bool
  | [], _ => true
  | _ :: _, [] => false
  | a :: as, b :: bs => a = b && leadingMatch as bs

/-- Does `pat` occur anywhere inside `hay`? (helper for substring search) -/
def subSearch : List Char → List Char → Bool
  | hay, pat =>
    if leadingMatch pat hay then true
    else
      match hay with
      | [] => false
      | _ :: t => subSearch t pat

/-- Models the Python substring test `pat in hay` on strings. -/
def strContains (hay pat : String) : Bool := subSearch hay.data pat.data

/-! ## Raw upstream data model

The shapes below model exactly the subset of the `GetBestOffers`
response dictionary that the scripts read.  An `Option` field models a
possibly missing dictionary key (Python `dict.get`).  The scripts'
"single dict vs list" normalization (`[x] if isinstance(x, dict) else x`)
is modelled by always carrying lists. -/

/-- A price dictionary such as `BuyItNowPrice` or an offer's `Price`:
the scripts read its `value` and `_currencyID` keys. -/
structure RawPrice where
  value : Option String
  currencyID : Option String
deriving DecidableEq, Repr

/-- One entry of `BestOfferArray.BestOffer`.  `buyerUserID` models the
nested `Buyer.UserID` lookup (`offer.get("Buyer", {}).get("UserID")`). -/
structure RawOffer where
  bestOfferCodeType : Option String
  status : Option String
  bestOfferID : Option String
  buyerUserID : Option String
  buyerMessage : Option String
  price : Option RawPrice
  quantity : Option String
  expirationTime : Option String
deriving DecidableEq, Repr

/-- The `Item` sub-dictionary of one `ItemBestOffers` entry. -/
structure RawItemInfo where
  itemID : Option String
  title : Option String
  buyItNowPrice : Option RawPrice
deriving DecidableEq, Repr

/-- One entry of `ItemBestOffersArray.ItemBestOffers`:
`item` models `item.get('Item', {})` (`none` = key missing) and
`bestOffers` the normalized `BestOfferArray.BestOffer` list. -/
structure RawItemBestOffers where
  item : Option RawItemInfo
  bestOffers : List RawOffer
deriving DecidableEq, Repr

/-- One `GetBestOffers` response dictionary, reduced to the keys the
scripts read.  `itemBestOffersArray = none` models a missing or falsy
`ItemBestOffersArray` value; `some l` a truthy dictionary whose
normalized `ItemBestOffers` list is `l` (possibly empty).
`totalNumberOfPages` carries `PaginationResult.TotalNumberOfPages`
already parsed to an integer (the scripts apply `int(...)` to a value
defaulting to `1`; a malformed upstream count is not modelled, no claim
depends on it). -/
structure RawPage where
  ack : Option String
  itemBestOffersArray : Option (List RawItemBestOffers)
  totalNumberOfPages : Option ℤ
deriving DecidableEq, Repr

/-- Result of one `ebay.execute('GetBestOffers', ...)` call:
`exn` models a raised exception, `ok` a response whose `.dict()` is the
given page. -/
inductive FetchResult where
  | exn : FetchResult
  | ok : RawPage → FetchResult
deriving DecidableEq, Repr

/-! ## The persisted Offer record -/

/-- One row of the persisted Excel store, with the columns the scripts
create.  `expirationTimePacific` holds the output of
`convert_utc_to_pacific`; `sku` is `none` until the SKU-resolution pass
assigns the column; `processedToDiscord` / `channelNotified` are `none`
for a `None`/NaN cell. -/
structure Offer where
  fetchedOn : String
  itemID : Option String
  title : String
  binPrice : ℚ
  binCurrency : String
  bestOfferID : String
  buyerUserID : Option String
  buyerMessage : Option String
  offerAmount : ℚ
  offerCurrency : String
  quantity : ℤ
  expirationTimePacific : Option String
  offerType : Option String
  status : Option String
  sku : Option String
  processedToDiscord : Option String
  channelNotified : Option String
deriving DecidableEq, Repr

/-- `convert_utc_to_pacific`, modelled at the precision the claims need:
the source reformats a well-formed UTC timestamp string into a
US/Pacific display string and returns its input verbatim on any parse
failure (including `None`).  No claim depends on the reformatted text,
so the value is modelled as the input itself; what matters is that the
function never raises. -/
def convert_utc_to_pacific (s : Option String) : Option String := s

/-- The combined `item_info.get('BuyItNowPrice', {}).get('value', 0)`
/ `offer.get('Price', {}).get('value', 0)` lookup followed by
`float(...)`: a missing dictionary or missing `value` key defaults to
`0`; a present string is parsed, `none` modelling the `ValueError`
raised on a malformed value. -/
def coercePrice (p : Option RawPrice) : Option ℚ :=
  match p.bind (·.value) with
  | none => some 0
  | some s => pyFloat? s

/-- `offer.get("Quantity", 1)` followed by `int(...)`. -/
def coerceQuantity (q : Option String) : Option ℤ :=
  match q with
  | none => some 1
  | some s => pyInt? s

/-! ## Offer extraction (the body of the per-offer loop, identical in both
ingestion scripts: `get_offers_every_hour.py` lines 141-162 and
`get_offers_every_2_hours.py` lines 86-107) -/

/-- Process one raw offer entry: skip it (`ok none`) when its
`BestOfferCodeType` is `'SellerCounterOffer'` or its `Status` is not
`'Pending'`/`'Expired'`; otherwise build the persisted record, where the
numeric coercions may raise (`error`).  `fetchedOn` stands for the
`datetime.now()` timestamp of the cycle. -/
def extractOffer (fetchedOn : String) (itemId : Option String) (title : String)
    (binPrice : ℚ) (binCurrency : String) (o : RawOffer) :
    Except Unit (Option Offer) :=
  if o.bestOfferCodeType = some "SellerCounterOffer" then .ok none
  else if ¬ (o.status = some "Pending" ∨ o.status = some "Expired") then .ok none
  else
    match coercePrice o.price, coerceQuantity o.quantity with
    | none, _ => .error ()
    | some _, none => .error ()
    | some amount, some qty => .ok (some
      { fetchedOn := fetchedOn
        itemID := itemId
        title := title
        binPrice := binPrice
        binCurrency := binCurrency
        bestOfferID := pyStr o.bestOfferID
        buyerUserID := o.buyerUserID
        buyerMessage := o.buyerMessage
        offerAmount := amount
        offerCurrency := (o.price.bind (·.currencyID)).getD "???"
        quantity := qty
        expirationTimePacific := convert_utc_to_pacific o.expirationTime
        offerType := o.bestOfferCodeType
        status := o.status
        sku := none
        processedToDiscord := none
        channelNotified := none })

/-- Process the offers of one listing in order, keeping the records the
filters admit.  An error from any entry aborts the whole extraction,
exactly as an uncaught exception would. -/
def extractOffersList (fetchedOn : String) (itemId : Option String) (title : String)
    (binPrice : ℚ) (binCurrency : String) : List RawOffer → Except Unit (List Offer)
  | [] => .ok []
  | o :: rest =>
    match extractOffer fetchedOn itemId title binPrice binCurrency o with
    | .error e => .error e
    | .ok h =>
      match extractOffersList fetchedOn itemId title binPrice binCurrency rest with
      | .error e => .error e
      | .ok t =>
        match h with
        | none => .ok t
        | some r => .ok (r :: t)

/-- The default for `item.get('Item', {})`. -/
def emptyItemInfo : RawItemInfo := { itemID := none, title := none, buyItNowPrice := none }

/-- Process one `ItemBestOffers` entry: read the item fields (the
Buy-It-Now price coercion may raise, aborting before the item id is
recorded), then the offers.  Returns the item id destined for the
`item_ids` set together with the extracted records. -/
def extractItem (fetchedOn : String) (it : RawItemBestOffers) :
    Except Unit (Option String × List Offer) :=
  let info := it.item.getD emptyItemInfo
  match coercePrice info.buyItNowPrice with
  | none => .error ()
  | some binPrice =>
    match extractOffersList fetchedOn info.itemID (info.title.getD "") binPrice
        ((info.buyItNowPrice.bind (·.currencyID)).getD "???") it.bestOffers with
    | .error e => .error e
    | .ok offs => .ok (info.itemID, offs)

/-- Process the listings of one page in order, accumulating extracted
records and the item ids in encounter order. -/
def extractPage (fetchedOn : String) : List RawItemBestOffers →
    Except Unit (List Offer × List (Option String))
  | [] => .ok ([], [])
  | it :: rest =>
    match extractItem fetchedOn it with
    | .error e => .error e
    | .ok (iid, offs) =>
      match extractPage fetchedOn rest with
      | .error e => .error e
      | .ok (restOffs, restIds) => .ok (offs ++ restOffs, iid :: restIds)

/-! ## Pagination loops

`MAX_PAGES = 600` in both ingestion scripts.  Both loops strictly
increase `page`, so each runs for at most 600 iterations; the Lean
models recurse on a fuel argument that counts the pages still allowed,
with the top-level entry points supplying fuel `MAX_PAGES` at page 1
(fuel 0 then coincides with the `page > MAX_PAGES` exit).  Each loop
returns the list of page numbers requested together with the final
accumulator — or `error` when an extraction exception escapes the loop
(neither script catches exceptions raised by the per-item code). -/

/-- The page cap shared by both ingestion scripts. -/
def MAX_PAGES : ℕ := 600

/-- The accumulator threaded through a pagination loop: the `offers`
list and the `item_ids` set (modelled as a duplicate-free list in
insertion order). -/
structure SyncAcc where
  offers : List Offer
  itemIds : List (Option String)
deriving DecidableEq, Repr

/-- `set.add`: append the id unless already present. -/
def insertId (ids : List (Option String)) (i : Option String) : List (Option String) :=
  if i ∈ ids then ids else ids ++ [i]

/-- Fold one extracted page into the accumulator. -/
def addPage (acc : SyncAcc) (offs : List Offer) (ids : List (Option String)) : SyncAcc :=
  { offers := acc.offers ++ offs, itemIds := ids.foldl insertId acc.itemIds }

/-- The pagination loop of `get_offers_every_hour.py` (lines 95-168).
An API exception, a non-`Success`/`Warning` ack, or (beyond page 1) a
missing `ItemBestOffersArray` advances to the next page; a missing
array on page 1 breaks out; otherwise the page is extracted,
`total_pages` is set if still unset, and the loop breaks once the next
page number exceeds it. -/
def hourlyLoop (fetch : ℕ → FetchResult) (fetchedOn : String) :
    ℕ → ℕ → Option ℤ → SyncAcc → List ℕ × Except Unit SyncAcc
  | 0, _, _, acc => ([], .ok acc)
  | fuel + 1, page, total, acc =>
    match fetch page with
    | .exn =>
      let r := hourlyLoop fetch fetchedOn fuel (page + 1) total acc
      (page :: r.1, r.2)
    | .ok data =>
      if ¬ (data.ack = some "Success" ∨ data.ack = some "Warning") then
        let r := hourlyLoop fetch fetchedOn fuel (page + 1) total acc
        (page :: r.1, r.2)
      else
        match data.itemBestOffersArray with
        | none =>
          if page = 1 then ([page], .ok acc)
          else
            let r := hourlyLoop fetch fetchedOn fuel (page + 1) total acc
            (page :: r.1, r.2)
        | some items =>
          match extractPage fetchedOn items with
          | .error e => ([page], .error e)
          | .ok (offs, ids) =>
            let acc' := addPage acc offs ids
            let t := match total with
              | none => data.totalNumberOfPages.getD 1
              | some t' => t'
            if ((page + 1 : ℕ) : ℤ) > t then ([page], .ok acc')
            else
              let r := hourlyLoop fetch fetchedOn fuel (page + 1) (some t) acc'
              (page :: r.1, r.2)

/-- The pagination loop of `get_offers_every_2_hours.py` (lines 49-113).
Unlike the hourly variant, an API exception, a bad ack, or an empty
item list `break`s immediately (keeping the offers accumulated so far);
the bottom-of-loop exit also compares against `MAX_PAGES` since the
`while` is unconditional. -/
def twoHourLoop (fetch : ℕ → FetchResult) (fetchedOn : String) :
    ℕ → ℕ → Option ℤ → SyncAcc → List ℕ × Except Unit SyncAcc
  | 0, _, _, acc => ([], .ok acc)
  | fuel + 1, page, total, acc =>
    match fetch page with
    | .exn => ([page], .ok acc)
    | .ok data =>
      if ¬ (data.ack = some "Success" ∨ data.ack = some "Warning") then ([page], .ok acc)
      else
        let items := (data.itemBestOffersArray).getD []
        if items.isEmpty then ([page], .ok acc)
        else
          match extractPage fetchedOn items with
          | .error e => ([page], .error e)
          | .ok (offs, ids) =>
            let acc' := addPage acc offs ids
            let t := match total with
              | none => data.totalNumberOfPages.getD 1
              | some t' => t'
            if ((page + 1 : ℕ) : ℤ) > t ∨ page + 1 > MAX_PAGES then ([page], .ok acc')
            else
              let r := twoHourLoop fetch fetchedOn fuel (page + 1) (some t) acc'
              (page :: r.1, r.2)

/-! ## SKU resolution and the post-loop column fixes -/

/-- The SKU resolution pass over the accumulated `item_ids` set.
`skuFetch` models `GetItem` followed by the `SKU` lookup with its
`try`/`except` collapsing every failure (and a missing `SKU` key) to
the empty string. -/
def buildSkuMap (skuFetch : Option String → String) (ids : List (Option String)) :
    List (Option String × String) :=
  ids.map (fun i => (i, skuFetch i))

/-- `sku_map.get(offer["ItemID"], '')`. -/
def lookupSku (m : List (Option String × String)) (k : Option String) : String :=
  match m.find? (fun p => decide (p.1 = k)) with
  | some p => p.2
  | none => ""

/-- Attach the resolved SKU to every accumulated offer
(`offer["SKU"] = sku_map.get(offer["ItemID"], '')`). -/
def attachSkus (skuFetch : Option String → String) (acc : SyncAcc) : List Offer :=
  let m := buildSkuMap skuFetch acc.itemIds
  acc.offers.map (fun o => { o with sku := some (lookupSku m o.itemID) })

/-- The `ItemID` column rewrite
`lambda x: str(int(float(x))) if pd.notnull(x) else ""`: a null cell
becomes the empty string; otherwise `float` may raise (`error`) and the
parsed value is truncated toward zero (Python `int()`) and rendered
back to a string. -/
def fixItemID (i : Option String) : Except Unit String :=
  match i with
  | none => .ok ""
  | some s =>
    match pyFloat? s with
    | none => .error ()
    | some q => .ok (toString (Int.tdiv q.num (q.den : ℤ)))

/-- The hourly script's post-loop column pass (lines 192-195): rewrite
`ItemID`, cast `BestOfferID` to string (already a string here), and
create the `ProcessedToDiscord` / `ChannelNotified` columns as `None`. -/
def finalizeHourly : List Offer → Except Unit (List Offer)
  | [] => .ok []
  | o :: rest =>
    match fixItemID o.itemID with
    | .error e => .error e
    | .ok iid =>
      match finalizeHourly rest with
      | .error e => .error e
      | .ok rest' =>
        .ok ({ o with
                itemID := some iid
                processedToDiscord := none
                channelNotified := none } :: rest')

/-- The 2-hour script's post-loop column pass (lines 133-134): rewrite
`ItemID` only (the notification columns are never created, so those
cells stay `None`, which the extraction model already records). -/
def finalizeTwoHour : List Offer → Except Unit (List Offer)
  | [] => .ok []
  | o :: rest =>
    match fixItemID o.itemID with
    | .error e => .error e
    | .ok iid =>
      match finalizeTwoHour rest with
      | .error e => .error e
      | .ok rest' => .ok ({ o with itemID := some iid } :: rest')

/-! ## The reconciliation merge and the persisted store -/

/-- The `BestOfferID` key column of a store slice. -/
def offerIds (l : List Offer) : List String := l.map (fun o => o.bestOfferID)

/-- `new_df[~new_df["BestOfferID"].isin(existing_ids)]`: the incoming
rows whose key is absent from the persisted key set. -/
def newOnlyOffers (existing newOffers : List Offer) : List Offer :=
  newOffers.filter (fun o => decide (o.bestOfferID ∉ offerIds existing))

/-- The reconciliation merge
`pd.concat([existing_df, new_only_df], ignore_index=True)`. -/
def mergeOffers (existing newOffers : List Offer) : List Offer :=
  existing ++ newOnlyOffers existing newOffers

/-- Accesses of the persisted Excel store performed by one ingestion
cycle, in order.  (The `os.path.exists` test is a pure existence check
and is modelled by the `Option` state itself.) -/
inductive StoreEvent where
  | readStore : StoreEvent
  | writeStore : List Offer → StoreEvent
deriving DecidableEq, Repr

/-! ## The two ingestion pipelines -/

/-- The batch an hourly cycle offers to the store: run the pagination
loop, attach SKUs, and — when the batch is non-empty — apply the column
pass.  `ok []` is exactly the `new_df.empty` early-return case (line
186-188), which fires before any column work or store access. -/
def hourlyNewBatch (fetch : ℕ → FetchResult) (skuFetch : Option String → String)
    (fetchedOn : String) : Except Unit (List Offer) :=
  match (hourlyLoop fetch fetchedOn MAX_PAGES 1 none ⟨[], []⟩).2 with
  | .error e => .error e
  | .ok acc =>
    let offers := attachSkus skuFetch acc
    if offers.isEmpty then .ok []
    else finalizeHourly offers

/-- `run_offer_sync` of `get_offers_every_hour.py`, from the store's
point of view: `store = none` models a missing `OUTPUT_FILE`.  Returns
the resulting store (`error` models an exception escaping the function)
together with the store accesses performed. -/
def run_offer_sync_hourly (fetch : ℕ → FetchResult) (skuFetch : Option String → String)
    (fetchedOn : String) (store : Option (List Offer)) :
    Except Unit (Option (List Offer)) × List StoreEvent :=
  match hourlyNewBatch fetch skuFetch fetchedOn with
  | .error e => (.error e, [])
  | .ok [] => (.ok store, [])
  | .ok offs =>
    match store with
    | some existing =>
      (.ok (some (mergeOffers existing offs)),
       [.readStore, .writeStore (mergeOffers existing offs)])
    | none => (.ok (some offs), [.writeStore offs])

/-- The batch a 2-hour cycle offers to the store.  With zero extracted
offers, `pd.DataFrame(offers)` has no columns at all and the
`new_df["ItemID"]` access on line 133 raises `KeyError`; this is the
`error` in the empty case. -/
def twoHourNewBatch (fetch : ℕ → FetchResult) (skuFetch : Option String → String)
    (fetchedOn : String) : Except Unit (List Offer) :=
  match (twoHourLoop fetch fetchedOn MAX_PAGES 1 none ⟨[], []⟩).2 with
  | .error e => .error e
  | .ok acc =>
    let offers := attachSkus skuFetch acc
    if offers.isEmpty then .error ()
    else finalizeTwoHour offers

/-- `run_offer_sync` of `get_offers_every_2_hours.py`, from the store's
point of view.  When every incoming key is already present the script
returns after the read without writing (lines 141-143); otherwise it
writes the concatenation. -/
def run_offer_sync_2h (fetch : ℕ → FetchResult) (skuFetch : Option String → String)
    (fetchedOn : String) (store : Option (List Offer)) :
    Except Unit (Option (List Offer)) × List StoreEvent :=
  match twoHourNewBatch fetch skuFetch fetchedOn with
  | .error e => (.error e, [])
  | .ok offs =>
    match store with
    | some existing =>
      let newOnly := newOnlyOffers existing offs
      if newOnly.isEmpty then (.ok store, [.readStore])
      else (.ok (some (existing ++ newOnly)), [.readStore, .writeStore (existing ++ newOnly)])
    | none => (.ok (some offs), [.writeStore offs])

/-! ## The Discord alert dispatcher (`get_offers_every_hour.py` lines 48-84
and 211-223) -/

/-- The environment of one alert batch: the SKU → channel map loaded by
`load_channel_map`, whether `self.get_channel` finds a channel id, and
whether the `channel.send` call for the row at a given store index
succeeds (`false` models a raised exception). -/
structure AlertCtx where
  channelMap : List (String × ℤ)
  channelExists : ℤ → Bool
  sendOk : ℕ → Bool

/-- `channel_map.get(sku)` on the loaded map (first binding wins, as the
loader overwrites duplicate keys last-wins — the scripts' maps are
keyed by normalized SKU and the claims never exercise duplicates). -/
def lookupChannel (m : List (String × ℤ)) (k : String) : Option ℤ :=
  (m.find? (fun p => decide (p.1 = k))).map (fun p => p.2)

/-- The observable actions of one `on_ready` batch, in order. -/
inductive NotifyEvent where
  | skippedNoMapping : ℕ → NotifyEvent
  | skippedNoChannel : ℕ → NotifyEvent
  | alertSent : ℕ → NotifyEvent
  | sendFailed : ℕ → NotifyEvent
  | persisted : List Offer → NotifyEvent
deriving DecidableEq, Repr

/-- `self.df.at[idx, "ChannelNotified"] = "Y"`: set the flag of the row
at position `idx`, in memory. -/
def setNotified (df : List Offer) (idx : ℕ) : List Offer :=
  match df[idx]? with
  | some r => df.set idx { r with channelNotified := some "Y" }
  | none => df

/-- One iteration of the `on_ready` loop for the snapshot row
`(idx, offer)`: resolve the channel from the normalized SKU (a missing
mapping — and a falsy channel id `0` — or an unknown channel id skips
the row), attempt the send, and flag the row in the in-memory frame on
success. -/
def onReadyStep (ctx : AlertCtx) (df : List Offer) (e : ℕ × Offer) :
    List Offer × List NotifyEvent :=
  let idx := e.1
  let sku := normalize_key (e.2.sku.getD "")
  match lookupChannel ctx.channelMap sku with
  | none => (df, [.skippedNoMapping idx])
  | some cid =>
    if cid = 0 then (df, [.skippedNoMapping idx])
    else if ¬ ctx.channelExists cid then (df, [.skippedNoChannel idx])
    else if ctx.sendOk idx then (setNotified df idx, [.alertSent idx])
    else (df, [.sendFailed idx])

/-- The `for idx, offer in self.unnotified_df.iterrows()` loop:
`unnotified` is the snapshot selected before the loop; updates go to
the live frame `df`. -/
def onReadyLoop (ctx : AlertCtx) : List (ℕ × Offer) → List Offer →
    List Offer × List NotifyEvent
  | [], df => (df, [])
  | e :: rest, df =>
    let s := onReadyStep ctx df e
    let r := onReadyLoop ctx rest s.1
    (r.1, s.2 ++ r.2)

/-- `DiscordNotifier.on_ready`: run the loop over the snapshot, then
write the whole frame to the Excel store once (`self.df.to_excel`,
line 80). -/
def on_ready (ctx : AlertCtx) (unnotified : List (ℕ × Offer)) (df : List Offer) :
    List Offer × List NotifyEvent :=
  let r := onReadyLoop ctx unnotified df
  (r.1, r.2 ++ [.persisted r.1])

/-- `run_discord_alerts`: select the rows with both `ProcessedToDiscord`
and `ChannelNotified` null, and hand that snapshot to `on_ready`. -/
def run_discord_alerts (ctx : AlertCtx) (df : List Offer) :
    List Offer × List NotifyEvent :=
  let unnotified := df.enum.filter
    (fun p => decide (p.2.processedToDiscord = none ∧ p.2.channelNotified = none))
  on_ready ctx unnotified df

/-! ## The interactive response engine
(`send_ebay_offers_to_discord_channels.py` lines 57-143) -/

/-- The payload handed to `ebay.execute("RespondToBestOffer", ...)`. -/
structure RespondPayload where
  itemID : String
  bestOfferID : String
  action : String
  counterOfferPrice : Option String
  counterOfferQuantity : Option ℤ
deriving DecidableEq, Repr

/-- Outcome of the upstream `RespondToBestOffer` call: success, or a
raised exception whose `str(e)` is the given text. -/
inductive UpstreamOutcome where
  | ok : UpstreamOutcome
  | raised : String → UpstreamOutcome
deriving DecidableEq, Repr

/-- The observable result of one `respond_to_offer` invocation: the
upstream calls made, the messages sent back to the user, and whether
the posted detail view (`self.message`) was deleted. -/
structure RespondResult where
  upstreamCalls : List RespondPayload
  sentMessages : List String
  messageDeleted : Bool
deriving DecidableEq, Repr

/-- The fixed user-facing text for the known "no longer available"
upstream error codes (lines 102-105). -/
def unavailableMessage : String :=
  "⚠️ This best offer is no longer available — it has either expired, been withdrawn by the buyer, or you've already responded to it."

/-- Does `str(e)` carry one of the four known upstream error codes
(line 101)? -/
def hasKnownErrorCode (e : String) : Bool :=
  strContains e "Code: 20136" || strContains e "Code: 21929" ||
  strContains e "Code: 20142" || strContains e "Code: 20143"

/-- The generic failure message (line 107). -/
def failMessage (action offerId errText : String) : String :=
  "❌ Failed to " ++ pyLowerStr action ++ " offer " ++ offerId ++ ": " ++ errText

/-- The success acknowledgment (lines 92-95). -/
def successMessage (action offerId itemId : String) : String :=
  "✅ " ++ action ++ " offer " ++ offerId ++ " for Item " ++ itemId

/-- The payload built on lines 76-84: `Counter` adds `CounterOfferPrice`
and `CounterOfferQuantity = 1` to the stripped identifiers. -/
def respondPayload (itemID offerID action : String) (counterPrice : Option String) :
    RespondPayload :=
  if action = "Counter" then
    { itemID := pyStripStr itemID, bestOfferID := pyStripStr offerID, action := action
      counterOfferPrice := counterPrice, counterOfferQuantity := some 1 }
  else
    { itemID := pyStripStr itemID, bestOfferID := pyStripStr offerID, action := action
      counterOfferPrice := none, counterOfferQuantity := none }

/-- `OfferView.respond_to_offer` (lines 68-109).  `itemID`/`offerID` are
the stringified row cells before `.strip()`; `upstream` models the eBay
call; `hasMessage` whether `self.message` holds the posted detail view. -/
def respond_to_offer (itemID offerID action : String) (counterPrice : Option String)
    (upstream : RespondPayload → UpstreamOutcome) (hasMessage : Bool) : RespondResult :=
  let item_id := pyStripStr itemID
  let offer_id := pyStripStr offerID
  if item_id = "" ∨ offer_id = "" then
    { upstreamCalls := []
      sentMessages := ["❌ Missing offer details — cannot proceed."]
      messageDeleted := false }
  else
    let payload : RespondPayload := respondPayload itemID offerID action counterPrice
    match upstream payload with
    | .ok =>
      { upstreamCalls := [payload]
        sentMessages := [successMessage action offer_id item_id]
        messageDeleted := hasMessage }
    | .raised errText =>
      { upstreamCalls := [payload]
        sentMessages :=
          [if hasKnownErrorCode errText then unavailableMessage
           else failMessage action offer_id errText]
        messageDeleted := false }

/-- `CounterOfferModal.on_submit` (lines 136-143): strip the entered
amount, reject it with a validation message when `float()` raises, and
otherwise delegate to `respond_to_offer` with action `Counter` and the
stripped text as price. -/
def counterOnSubmit (amountRaw : String) (itemID offerID : String)
    (upstream : RespondPayload → UpstreamOutcome) (hasMessage : Bool) : RespondResult :=
  let amount := pyStripStr amountRaw
  match pyFloat? amount with
  | none =>
    { upstreamCalls := []
      sentMessages := ["❌ Invalid amount format."]
      messageDeleted := false }
  | some _ => respond_to_offer itemID offerID "Counter" (some amount) upstream hasMessage

/-! ## The extraction filter invariant (claim C2) -/

/-- The property the extraction filters enforce: a persisted record's
status survives the `['Pending', 'Expired']` filter and its offer type
is not the seller-counter classification. -/
def keptOffer (o : Offer) : Prop :=
  (o.status = some "Pending" ∨ o.status = some "Expired") ∧
  o.offerType ≠ some "SellerCounterOffer"

theorem extractOffer_kept {d : String} {iid : Option String} {t : String} {bp : ℚ}
    {bc : String} {o : RawOffer} {r : Offer}
    (h : extractOffer d iid t bp bc o = .ok (some r)) : keptOffer r := by
  unfold extractOffer at h
  split at h
  · exact absurd h (by simp)
  · split at h
    · exact absurd h (by simp)
    · rename_i h1 h2
      split at h
      · exact absurd h (by simp)
      · exact absurd h (by simp)
      · rw [Except.ok.injEq, Option.some.injEq] at h
        subst h
        exact ⟨not_not.mp h2, h1⟩

theorem extractOffersList_kept {d : String} {iid : Option String} {t : String} {bp : ℚ}
    {bc : String} {os : List RawOffer} {l : List Offer}
    (h : extractOffersList d iid t bp bc os = .ok l) : ∀ r ∈ l, keptOffer r := by
  induction os generalizing l with
  | nil =>
    unfold extractOffersList at h
    rw [Except.ok.injEq] at h
    subst h
    intro r hr
    cases hr
  | cons o rest ih =>
    unfold extractOffersList at h
    split at h
    · exact absurd h (by simp)
    · rename_i res hres
      split at h
      · exact absurd h (by simp)
      · rename_i tl htl
        split at h
        · rw [Except.ok.injEq] at h
          subst h
          exact ih htl
        · rename_i r'
          rw [Except.ok.injEq] at h
          subst h
          intro r hr
          rcases List.mem_cons.mp hr with hh | hm
          · subst hh
            exact extractOffer_kept hres
          · exact ih htl r hm

theorem extractItem_kept {d : String} {it : RawItemBestOffers} {iid : Option String}
    {offs : List Offer} (h : extractItem d it = .ok (iid, offs)) :
    ∀ r ∈ offs, keptOffer r := by
  simp only [extractItem] at h
  split at h
  · exact absurd h (by simp)
  · split at h
    · exact absurd h (by simp)
    · rename_i l hl
      rw [Except.ok.injEq, Prod.mk.injEq] at h
      exact h.2 ▸ extractOffersList_kept hl

theorem extractPage_kept {d : String} {items : List RawItemBestOffers}
    {offs : List Offer} {ids : List (Option String)}
    (h : extractPage d items = .ok (offs, ids)) : ∀ r ∈ offs, keptOffer r := by
  induction items generalizing offs ids with
  | nil =>
    unfold extractPage at h
    rw [Except.ok.injEq, Prod.mk.injEq] at h
    intro r hr
    rw [← h.1] at hr
    cases hr
  | cons it rest ih =>
    unfold extractPage at h
    split at h
    · exact absurd h (by simp)
    · rename_i iid' offs' hit
      split at h
      · exact absurd h (by simp)
      · rename_i restOffs restIds hrest
        rw [Except.ok.injEq, Prod.mk.injEq] at h
        intro r hr
        rw [← h.1] at hr
        rcases List.mem_append.mp hr with hm | hm
        · exact extractItem_kept hit r hm
        · exact ih hrest r hm

theorem hourlyLoop_kept {f : ℕ → FetchResult} {d : String} :
    ∀ (fuel page : ℕ) (total : Option ℤ) (acc res : SyncAcc),
    (hourlyLoop f d fuel page total acc).2 = .ok res →
    (∀ r ∈ acc.offers, keptOffer r) → ∀ r ∈ res.offers, keptOffer r := by
  intro fuel
  induction fuel with
  | zero =>
    intro page total acc res h hacc
    simp only [hourlyLoop] at h
    rw [Except.ok.injEq] at h
    subst h
    exact hacc
  | succ fuel ih =>
    intro page total acc res h hacc
    simp only [hourlyLoop] at h
    split at h
    · exact ih _ _ _ _ h hacc
    · split at h
      · exact ih _ _ _ _ h hacc
      · split at h
        · split at h
          · rw [Except.ok.injEq] at h
            subst h
            exact hacc
          · exact ih _ _ _ _ h hacc
        · split at h
          · exact absurd h (by simp)
          · rename_i items _ _ offs ids hex
            have hacc' : ∀ r ∈ (addPage acc offs ids).offers, keptOffer r := by
              intro r hr
              rcases List.mem_append.mp hr with hm | hm
              · exact hacc r hm
              · exact extractPage_kept hex r hm
            split at h
            · rw [Except.ok.injEq] at h
              subst h
              exact hacc'
            · exact ih _ _ _ _ h hacc'

theorem twoHourLoop_kept {f : ℕ → FetchResult} {d : String} :
    ∀ (fuel page : ℕ) (total : Option ℤ) (acc res : SyncAcc),
    (twoHourLoop f d fuel page total acc).2 = .ok res →
    (∀ r ∈ acc.offers, keptOffer r) → ∀ r ∈ res.offers, keptOffer r := by
  intro fuel
  induction fuel with
  | zero =>
    intro page total acc res h hacc
    simp only [twoHourLoop] at h
    rw [Except.ok.injEq] at h
    subst h
    exact hacc
  | succ fuel ih =>
    intro page total acc res h hacc
    simp only [twoHourLoop] at h
    split at h
    · rw [Except.ok.injEq] at h
      subst h
      exact hacc
    · split at h
      · rw [Except.ok.injEq] at h
        subst h
        exact hacc
      · split at h
        · rw [Except.ok.injEq] at h
          subst h
          exact hacc
        · split at h
          · exact absurd h (by simp)
          · rename_i offs ids hex
            have hacc' : ∀ r ∈ (addPage acc offs ids).offers, keptOffer r := by
              intro r hr
              rcases List.mem_append.mp hr with hm | hm
              · exact hacc r hm
              · exact extractPage_kept hex r hm
            split at h
            · rw [Except.ok.injEq] at h
              subst h
              exact hacc'
            · exact ih _ _ _ _ h hacc'

theorem attachSkus_kept {skuF : Option String → String} {acc : SyncAcc}
    (hacc : ∀ r ∈ acc.offers, keptOffer r) :
    ∀ r ∈ attachSkus skuF acc, keptOffer r := by
  intro r hr
  simp only [attachSkus, List.mem_map] at hr
  obtain ⟨o, ho, rfl⟩ := hr
  exact hacc o ho

theorem finalizeHourly_kept : ∀ {l l' : List Offer}, finalizeHourly l = .ok l' →
    (∀ r ∈ l, keptOffer r) → ∀ r ∈ l', keptOffer r := by
  intro l
  induction l with
  | nil =>
    intro l' h hl
    simp only [finalizeHourly] at h
    rw [Except.ok.injEq] at h
    subst h
    exact hl
  | cons o rest ih =>
    intro l' h hl
    simp only [finalizeHourly] at h
    split at h
    · exact absurd h (by simp)
    · split at h
      · exact absurd h (by simp)
      · rename_i rest' hrest
        rw [Except.ok.injEq] at h
        subst h
        intro r hr
        rcases List.mem_cons.mp hr with hh | hm
        · subst hh
          exact hl o (List.mem_cons_self o rest)
        · exact ih hrest (fun r' hr' => hl r' (List.mem_cons_of_mem o hr')) r hm

theorem finalizeTwoHour_kept : ∀ {l l' : List Offer}, finalizeTwoHour l = .ok l' →
    (∀ r ∈ l, keptOffer r) → ∀ r ∈ l', keptOffer r := by
  intro l
  induction l with
  | nil =>
    intro l' h hl
    simp only [finalizeTwoHour] at h
    rw [Except.ok.injEq] at h
    subst h
    exact hl
  | cons o rest ih =>
    intro l' h hl
    simp only [finalizeTwoHour] at h
    split at h
    · exact absurd h (by simp)
    · split at h
      · exact absurd h (by simp)
      · rename_i rest' hrest
        rw [Except.ok.injEq] at h
        subst h
        intro r hr
        rcases List.mem_cons.mp hr with hh | hm
        · subst hh
          exact hl o (List.mem_cons_self o rest)
        · exact ih hrest (fun r' hr' => hl r' (List.mem_cons_of_mem o hr')) r hm

theorem mergeOffers_mem {e n : List Offer} {o : Offer} (h : o ∈ mergeOffers e n) :
    o ∈ e ∨ o ∈ n := by
  rcases List.mem_append.mp h with hm | hm
  · exact Or.inl hm
  · exact Or.inr (List.mem_of_mem_filter hm)

theorem hourlyNewBatch_kept {f : ℕ → FetchResult} {skuF : Option String → String}
    {d : String} {offs : List Offer} (h : hourlyNewBatch f skuF d = .ok offs) :
    ∀ r ∈ offs, keptOffer r := by
  simp only [hourlyNewBatch] at h
  split at h
  · exact absurd h (by simp)
  · rename_i acc hloop
    split at h
    · rw [Except.ok.injEq] at h
      subst h
      intro r hr
      cases hr
    · exact finalizeHourly_kept h
        (attachSkus_kept (hourlyLoop_kept MAX_PAGES 1 none ⟨[], []⟩ acc hloop
          (by intro r hr; cases hr)))

theorem twoHourNewBatch_kept {f : ℕ → FetchResult} {skuF : Option String → String}
    {d : String} {offs : List Offer} (h : twoHourNewBatch f skuF d = .ok offs) :
    ∀ r ∈ offs, keptOffer r := by
  simp only [twoHourNewBatch] at h
  split at h
  · exact absurd h (by simp)
  · rename_i acc hloop
    split at h
    · exact absurd h (by simp)
    · exact finalizeTwoHour_kept h
        (attachSkus_kept (twoHourLoop_kept MAX_PAGES 1 none ⟨[], []⟩ acc hloop
          (by intro r hr; cases hr)))

/-! ## Shared concrete sample data -/

/-- A well-formed price dictionary used by concrete instances. -/
def samplePrice : RawPrice := { value := some "10", currencyID := some "USD" }

/-- A pending buyer offer that passes both extraction filters. -/
def sampleRawOffer : RawOffer :=
  { bestOfferCodeType := some "BuyerBestOffer"
    status := some "Pending"
    bestOfferID := some "500001"
    buyerUserID := some "buyer1"
    buyerMessage := none
    price := some samplePrice
    quantity := some "1"
    expirationTime := some "2031-01-01T00:00:00.000Z" }

/-- A listing carrying `sampleRawOffer`. -/
def sampleItem : RawItemBestOffers :=
  { item := some { itemID := some "111", title := some "Sample", buyItNowPrice := some samplePrice }
    bestOffers := [sampleRawOffer] }

/-- A one-page successful response. -/
def samplePage : RawPage :=
  { ack := some "Success"
    itemBestOffersArray := some [sampleItem]
    totalNumberOfPages := some 1 }

/-- An upstream serving exactly `samplePage` as page 1. -/
def sampleFetch : ℕ → FetchResult := fun p => if p = 1 then .ok samplePage else .exn

/-- A SKU resolver that always answers `widget`. -/
def sampleSkuFetch : Option String → String := fun _ => "widget"

/-- The store row that ingesting `samplePage` produces. -/
def sampleStored : Offer :=
  { fetchedOn := "d"
    itemID := some "111"
    title := "Sample"
    binPrice := 10
    binCurrency := "USD"
    bestOfferID := "500001"
    buyerUserID := some "buyer1"
    buyerMessage := none
    offerAmount := 10
    offerCurrency := "USD"
    quantity := 1
    expirationTimePacific := some "2031-01-01T00:00:00.000Z"
    offerType := some "BuyerBestOffer"
    status := some "Pending"
    sku := some "widget"
    processedToDiscord := none
    channelNotified := none }

/-- Claim C2: for every raw offer entry on every page, the extractor
persists the offer only if its `Status` is exactly `'Pending'` or
`'Expired'` and its `BestOfferCodeType` is not `'SellerCounterOffer'`;
hence — provided the pre-existing store already satisfies it — every
offer in the persisted store of either ingestion script satisfies
`status ∈ {Pending, Expired}` and is never the seller-counter
classification. -/
theorem C2_extraction_invariant :
    (∀ (d : String) (items : List RawItemBestOffers) (offs : List Offer)
       (ids : List (Option String)), extractPage d items = .ok (offs, ids) →
       ∀ r ∈ offs, keptOffer r) ∧
    (∀ (f : ℕ → FetchResult) (skuF : Option String → String) (d : String)
       (store : Option (List Offer)) (s' : List Offer),
       (∀ o ∈ store.getD [], keptOffer o) →
       (run_offer_sync_hourly f skuF d store).1 = .ok (some s') →
       ∀ o ∈ s', keptOffer o) ∧
    (∀ (f : ℕ → FetchResult) (skuF : Option String → String) (d : String)
       (store : Option (List Offer)) (s' : List Offer),
       (∀ o ∈ store.getD [], keptOffer o) →
       (run_offer_sync_2h f skuF d store).1 = .ok (some s') →
       ∀ o ∈ s', keptOffer o) := by
  refine ⟨fun d items offs ids h => extractPage_kept h, ?_, ?_⟩
  · intro f skuF d store s' hstore h
    unfold run_offer_sync_hourly at h
    split at h
    · exact absurd h (by simp)
    · rw [Prod.fst, Except.ok.injEq] at h
      subst h
      intro o ho
      exact hstore o ho
    · rename_i offs hbatch
      cases store with
      | some e =>
        rw [Prod.fst, Except.ok.injEq, Option.some.injEq] at h
        subst h
        intro o ho
        rcases mergeOffers_mem ho with hm | hm
        · exact hstore o hm
        · exact hourlyNewBatch_kept hbatch o hm
      | none =>
        rw [Prod.fst, Except.ok.injEq, Option.some.injEq] at h
        subst h
        exact hourlyNewBatch_kept hbatch
  · intro f skuF d store s' hstore h
    unfold run_offer_sync_2h at h
    split at h
    · exact absurd h (by simp)
    · rename_i offs hbatch
      cases store with
      | some e =>
        simp only [] at h
        split at h
        · rw [Prod.fst, Except.ok.injEq, Option.some.injEq] at h
          subst h
          exact hstore
        · rw [Prod.fst, Except.ok.injEq, Option.some.injEq] at h
          subst h
          intro o ho
          rcases List.mem_append.mp ho with hm | hm
          · exact hstore o hm
          · exact twoHourNewBatch_kept hbatch o (List.mem_of_mem_filter hm)
      | none =>
        rw [Prod.fst, Except.ok.injEq, Option.some.injEq] at h
        subst h
        exact twoHourNewBatch_kept hbatch

/-- The record `samplePage` extraction yields before SKU attachment. -/
def sampleExtracted : Offer := { sampleStored with sku := none }

/-- Claim C2, witness: the invariant instantiated on `samplePage`
ingested by both scripts over an absent store, with every hypothesis
discharged on that concrete input. -/
theorem C2_witness :
    (∀ r ∈ [sampleExtracted], keptOffer r) ∧
    (∀ o ∈ [sampleStored], keptOffer o) ∧
    (∀ o ∈ [sampleStored], keptOffer o) ∧
    keptOffer sampleStored := by
  have h1 := C2_extraction_invariant.1 "d" [sampleItem] [sampleExtracted] [some "111"]
    (by with_unfolding_all decide)
  have h2 := C2_extraction_invariant.2.1 sampleFetch sampleSkuFetch "d" none [sampleStored]
    (by intro o ho; exact absurd ho (by simp))
    (by with_unfolding_all decide)
  have h3 := C2_extraction_invariant.2.2 sampleFetch sampleSkuFetch "d" none [sampleStored]
    (by intro o ho; exact absurd ho (by simp))
    (by with_unfolding_all decide)
  exact ⟨h1, h2, h3, h2 sampleStored (by simp)⟩

/-! ## Claim C7: the merge never touches existing records -/

theorem mergeOffers_take {e n : List Offer} : (mergeOffers e n).take e.length = e :=
  List.take_left e (newOnlyOffers e n)

/-- Claim C7: for every already-persisted offer record, a reconciliation
merge leaves its `FetchedOn`, `BestOfferID` and `ItemID` fields — indeed
every field — unchanged: the merged store starts with the existing rows
themselves, in both ingestion scripts' pipelines. -/
theorem C7_merge_frame :
    (∀ e n : List Offer, (mergeOffers e n).take e.length = e) ∧
    (∀ (f : ℕ → FetchResult) (skuF : Option String → String) (d : String)
       (e s' : List Offer),
       (run_offer_sync_hourly f skuF d (some e)).1 = .ok (some s') →
       s'.take e.length = e) ∧
    (∀ (f : ℕ → FetchResult) (skuF : Option String → String) (d : String)
       (e s' : List Offer),
       (run_offer_sync_2h f skuF d (some e)).1 = .ok (some s') →
       s'.take e.length = e) := by
  refine ⟨fun e n => mergeOffers_take, ?_, ?_⟩
  · intro f skuF d e s' h
    unfold run_offer_sync_hourly at h
    split at h
    · exact absurd h (by simp)
    · rw [Prod.fst, Except.ok.injEq, Option.some.injEq] at h
      subst h
      exact List.take_length e
    · rw [Prod.fst, Except.ok.injEq, Option.some.injEq] at h
      subst h
      exact mergeOffers_take
  · intro f skuF d e s' h
    unfold run_offer_sync_2h at h
    split at h
    · exact absurd h (by simp)
    · simp only [] at h
      split at h
      · rw [Prod.fst, Except.ok.injEq, Option.some.injEq] at h
        subst h
        exact List.take_length e
      · rw [Prod.fst, Except.ok.injEq, Option.some.injEq] at h
        subst h
        exact List.take_left e _

/-- Claim C7, witness: both pipelines re-ingesting `samplePage` over a
store that already holds its record leave that record in place. -/
theorem C7_witness :
    ([sampleStored].take 1 = [sampleStored]) ∧
    ((mergeOffers [sampleStored] [sampleStored]).take 1 = [sampleStored]) := by
  have h2 := C7_merge_frame.2.1 sampleFetch sampleSkuFetch "d" [sampleStored]
    (mergeOffers [sampleStored] [sampleStored]) (by with_unfolding_all decide)
  have h3 := C7_merge_frame.2.2 sampleFetch sampleSkuFetch "d" [sampleStored]
    [sampleStored] (by with_unfolding_all decide)
  exact ⟨h3, h2⟩

/-! ## Claim C1: append-only merge and ingestion idempotence -/

theorem newOnlyOffers_merge_nil {e n : List Offer} :
    newOnlyOffers (mergeOffers e n) n = [] := by
  rw [newOnlyOffers, List.filter_eq_nil_iff]
  intro o ho
  rw [decide_eq_true_eq, not_not]
  unfold mergeOffers offerIds
  rw [List.map_append, List.mem_append]
  by_cases hid : o.bestOfferID ∈ offerIds e
  · exact Or.inl hid
  · refine Or.inr (List.mem_map_of_mem (fun r : Offer => r.bestOfferID) ?_)
    exact List.mem_filter.mpr ⟨ho, by rw [decide_eq_true_eq]; exact hid⟩

theorem mergeOffers_idem {e n : List Offer} :
    mergeOffers (mergeOffers e n) n = mergeOffers e n := by
  conv_lhs => rw [mergeOffers]
  rw [newOnlyOffers_merge_nil, List.append_nil]

theorem newOnlyOffers_self {n : List Offer} : newOnlyOffers n n = [] := by
  rw [newOnlyOffers, List.filter_eq_nil_iff]
  intro o ho
  rw [decide_eq_true_eq, not_not]
  exact List.mem_map_of_mem (fun r : Offer => r.bestOfferID) ho

theorem mergeOffers_self {n : List Offer} : mergeOffers n n = n := by
  rw [mergeOffers, newOnlyOffers_self, List.append_nil]

theorem mergeOffers_drop {e n : List Offer} :
    ∀ o ∈ (mergeOffers e n).drop e.length, o.bestOfferID ∉ offerIds e := by
  rw [mergeOffers, List.drop_left]
  intro o ho
  have := (List.mem_filter.mp ho).2
  rw [decide_eq_true_eq] at this
  exact this

theorem mergeOffers_nodup {e n : List Offer} (he : (offerIds e).Nodup)
    (hn : (offerIds n).Nodup) : (offerIds (mergeOffers e n)).Nodup := by
  unfold mergeOffers offerIds
  rw [List.map_append]
  refine List.Nodup.append he (hn.sublist ((List.filter_sublist n).map _)) ?_
  intro a hae han
  simp only [List.mem_map] at han
  obtain ⟨o, ho, rfl⟩ := han
  have := (List.mem_filter.mp ho).2
  rw [decide_eq_true_eq] at this
  exact this hae

/-- Claim C1, amended: for every run of the reconciliation merge, only
offers whose `BestOfferID` is absent from the already-persisted key set
are appended, and no existing record is rewritten; running either
ingestion script a second time over identical upstream pages returns
the persisted store unchanged (in particular with the same number of
records); and the resulting store has no duplicate `BestOfferID`
*provided* the incoming batch's keys are pairwise distinct and the
prior store's keys were — the merge does not deduplicate inside one
batch (see the counterexample). -/
theorem C1_merge_append_only :
    (∀ e n : List Offer, (mergeOffers e n).take e.length = e) ∧
    (∀ (e n : List Offer) (o : Offer), o ∈ (mergeOffers e n).drop e.length →
       o.bestOfferID ∉ offerIds e) ∧
    (∀ e n : List Offer, mergeOffers (mergeOffers e n) n = mergeOffers e n) ∧
    (∀ e n : List Offer, (offerIds e).Nodup → (offerIds n).Nodup →
       (offerIds (mergeOffers e n)).Nodup) ∧
    (∀ (f : ℕ → FetchResult) (skuF : Option String → String) (d : String)
       (s0 s1 : Option (List Offer)),
       (run_offer_sync_hourly f skuF d s0).1 = .ok s1 →
       (run_offer_sync_hourly f skuF d s1).1 = .ok s1) ∧
    (∀ (f : ℕ → FetchResult) (skuF : Option String → String) (d : String)
       (s0 s1 : Option (List Offer)),
       (run_offer_sync_2h f skuF d s0).1 = .ok s1 →
       (run_offer_sync_2h f skuF d s1).1 = .ok s1) := by
  refine ⟨fun e n => mergeOffers_take, fun e n => mergeOffers_drop,
    fun e n => mergeOffers_idem, fun e n => mergeOffers_nodup, ?_, ?_⟩
  · intro f skuF d s0 s1 h
    unfold run_offer_sync_hourly at h ⊢
    cases hb : hourlyNewBatch f skuF d with
    | error e =>
      rw [hb] at h
      exact absurd h (by simp)
    | ok offs =>
      rw [hb] at h
      cases offs with
      | nil =>
        rw [Prod.fst, Except.ok.injEq] at h
      | cons o rest =>
        cases s0 with
        | none =>
          rw [Prod.fst, Except.ok.injEq] at h
          subst h
          show Except.ok (some (mergeOffers (o :: rest) (o :: rest))) =
            Except.ok (some (o :: rest))
          rw [mergeOffers_self]
        | some e =>
          rw [Prod.fst, Except.ok.injEq] at h
          subst h
          show Except.ok (some (mergeOffers (mergeOffers e (o :: rest)) (o :: rest))) = _
          rw [mergeOffers_idem]
  · intro f skuF d s0 s1 h
    unfold run_offer_sync_2h at h ⊢
    cases hb : twoHourNewBatch f skuF d with
    | error e =>
      rw [hb] at h
      exact absurd h (by simp)
    | ok offs =>
      rw [hb] at h
      cases s0 with
      | none =>
        rw [Prod.fst, Except.ok.injEq] at h
        subst h
        show (if (newOnlyOffers offs offs).isEmpty = true then _ else _ : _ × _).1 = _
        rw [newOnlyOffers_self]
        rfl
      | some e =>
        simp only [] at h
        by_cases hne : (newOnlyOffers e offs).isEmpty = true
        · rw [if_pos hne] at h
          rw [Prod.fst, Except.ok.injEq] at h
          subst h
          show (if (newOnlyOffers e offs).isEmpty = true then _ else _ : _ × _).1 = _
          rw [if_pos hne]
        · rw [if_neg hne] at h
          rw [Prod.fst, Except.ok.injEq] at h
          subst h
          show (if (newOnlyOffers (e ++ newOnlyOffers e offs) offs).isEmpty = true
            then _ else _ : _ × _).1 = _
          have hmerge : newOnlyOffers (e ++ newOnlyOffers e offs) offs = [] :=
            newOnlyOffers_merge_nil
          rw [hmerge]
          rfl

/-- A second raw entry carrying the *same* `BestOfferID` as
`sampleRawOffer` (upstream would have to repeat the offer — e.g. across
overlapping pages — but nothing in the script rules it out). -/
def dupRawOffer : RawOffer := { sampleRawOffer with buyerUserID := some "buyer2" }

/-- A listing whose offer array repeats `BestOfferID` `500001`. -/
def dupItem : RawItemBestOffers :=
  { item := some { itemID := some "111", title := some "Sample", buyItNowPrice := some samplePrice }
    bestOffers := [sampleRawOffer, dupRawOffer] }

/-- A one-page response built from `dupItem`. -/
def dupPage : RawPage :=
  { ack := some "Success"
    itemBestOffersArray := some [dupItem]
    totalNumberOfPages := some 1 }

/-- An upstream serving `dupPage` as its only page. -/
def dupFetch : ℕ → FetchResult := fun p => if p = 1 then .ok dupPage else .exn

/-- The second stored row of the duplicate batch. -/
def dupStored : Offer := { sampleStored with buyerUserID := some "buyer2" }

/-- The store the duplicate batch produces: two records with the same
`BestOfferID`. -/
def dupStore : List Offer := [sampleStored, dupStored]

/-- Claim C1, counterexample: ingesting a batch whose two entries share
`BestOfferID` `"500001"` over an empty store persists both; running the
identical ingestion a second time leaves the size unchanged, yet the
persisted store *does* hold a duplicate `BestOfferID`, contradicting
the claim's "no duplicate BestOfferID" — the merge only filters against
the already-persisted key set, never inside the incoming batch. -/
theorem C1_counterexample :
    (run_offer_sync_hourly dupFetch sampleSkuFetch "d" none).1 = .ok (some dupStore) ∧
    (run_offer_sync_hourly dupFetch sampleSkuFetch "d" (some dupStore)).1 =
      .ok (some dupStore) ∧
    dupStore.length = 2 ∧
    ¬ (offerIds dupStore).Nodup := by
  refine ⟨by with_unfolding_all decide, by with_unfolding_all decide, by decide, by decide⟩

/-- Claim C1, witness: the amended statement instantiated on concrete
stores and on `samplePage` re-ingested by both scripts. -/
theorem C1_witness :
    ((mergeOffers [sampleStored] []).take 1 = [sampleStored]) ∧
    (mergeOffers (mergeOffers [] [sampleStored]) [sampleStored] =
      mergeOffers [] [sampleStored]) ∧
    (offerIds (mergeOffers [sampleStored] [])).Nodup ∧
    ((run_offer_sync_hourly sampleFetch sampleSkuFetch "d" (some [sampleStored])).1 =
      .ok (some [sampleStored])) ∧
    ((run_offer_sync_2h sampleFetch sampleSkuFetch "d" (some [sampleStored])).1 =
      .ok (some [sampleStored])) := by
  refine ⟨C1_merge_append_only.1 [sampleStored] [],
    C1_merge_append_only.2.2.1 [] [sampleStored],
    C1_merge_append_only.2.2.2.1 [sampleStored] [] (by decide) (by decide),
    C1_merge_append_only.2.2.2.2.1 sampleFetch sampleSkuFetch "d" none (some [sampleStored])
      (by with_unfolding_all decide),
    C1_merge_append_only.2.2.2.2.2 sampleFetch sampleSkuFetch "d" none (some [sampleStored])
      (by with_unfolding_all decide)⟩

/-! ## Claims C3 and C9: the interactive response engine -/

/-- Claim C3, amended: if the entered counter amount does not parse as a
numeric value (Python `float` on the stripped text raises), the
submission is rejected with a validation error, no upstream call is
made, and the posted detail view stays in place (the offer remains
surfaced); if it parses — *regardless of sign*, the code never checks
positivity — `respondToOffer` is invoked with action `Counter`, the
stripped amount as price, and a fixed quantity of one. -/
theorem C3_counter_validation :
    (∀ (amountRaw itemID offerID : String)
       (upstream : RespondPayload → UpstreamOutcome) (hasMsg : Bool),
       pyFloat? (pyStripStr amountRaw) = none →
       counterOnSubmit amountRaw itemID offerID upstream hasMsg =
         { upstreamCalls := [], sentMessages := ["❌ Invalid amount format."],
           messageDeleted := false }) ∧
    (∀ (amountRaw itemID offerID : String) (q : ℚ)
       (upstream : RespondPayload → UpstreamOutcome) (hasMsg : Bool),
       pyFloat? (pyStripStr amountRaw) = some q →
       pyStripStr itemID ≠ "" → pyStripStr offerID ≠ "" →
       (counterOnSubmit amountRaw itemID offerID upstream hasMsg).upstreamCalls =
         [{ itemID := pyStripStr itemID, bestOfferID := pyStripStr offerID
            action := "Counter", counterOfferPrice := some (pyStripStr amountRaw)
            counterOfferQuantity := some 1 }]) := by
  constructor
  · intro amountRaw itemID offerID upstream hasMsg h
    simp only [counterOnSubmit]
    rw [h]
  · intro amountRaw itemID offerID q upstream hasMsg h hi ho
    simp only [counterOnSubmit]
    rw [h]
    simp only [respond_to_offer]
    rw [if_neg (by push_neg; exact ⟨hi, ho⟩)]
    have hp : respondPayload itemID offerID "Counter" (some (pyStripStr amountRaw)) =
        { itemID := pyStripStr itemID
          bestOfferID := pyStripStr offerID
          action := "Counter"
          counterOfferPrice := some (pyStripStr amountRaw)
          counterOfferQuantity := some 1 } := by
      unfold respondPayload
      rw [if_pos rfl]
    cases upstream (respondPayload itemID offerID "Counter" (some (pyStripStr amountRaw))) <;>
      rw [RespondResult.upstreamCalls, hp]

/-- Claim C3, counterexample: the amount `"0"` does *not* parse as a
positive numeric value, yet the submission is not rejected — the code
only checks that `float()` succeeds, so the upstream `Counter` call is
made with price `"0"`, contradicting "zero upstream respondToOffer
calls are made" for non-positive input. -/
theorem C3_counterexample :
    pyFloat? "0" = some 0 ∧ ¬ ((0 : ℚ) < 0) ∧
    (counterOnSubmit "0" "11" "22" (fun _ => .ok) true).upstreamCalls =
      [{ itemID := "11", bestOfferID := "22", action := "Counter"
         counterOfferPrice := some "0", counterOfferQuantity := some 1 }] :=
  ⟨by with_unfolding_all decide, lt_irrefl 0, by with_unfolding_all decide⟩

/-- Claim C3, witness: a malformed amount `"abc"` is rejected with no
upstream call, and a valid amount `" 42.50 "` produces exactly the
`Counter` payload with quantity one. -/
theorem C3_witness :
    counterOnSubmit "abc" "11" "22" (fun _ => .ok) true =
      { upstreamCalls := [], sentMessages := ["❌ Invalid amount format."]
        messageDeleted := false } ∧
    (counterOnSubmit " 42.50 " "11" "22" (fun _ => .ok) true).upstreamCalls =
      [{ itemID := "11", bestOfferID := "22", action := "Counter"
         counterOfferPrice := some "42.50", counterOfferQuantity := some 1 }] :=
  ⟨C3_counter_validation.1 "abc" "11" "22" (fun _ => .ok) true (by decide),
   C3_counter_validation.2 " 42.50 " "11" "22" (85/2) (fun _ => .ok) true
     (by with_unfolding_all decide) (by decide) (by decide)⟩

/-- Claim C9: for every `respondToOffer` call that fails, an upstream
error text carrying one of the fixed known codes (20136, 21929, 20142,
20143) produces the fixed "no longer available" message; any other
upstream error produces a failure message quoting the raw error text
verbatim; in both failure cases the posted detail view is *not*
deleted (the offer stays surfaced, so the user may retry); only on
upstream success is the detail view retired. -/
theorem C9_error_classification :
    ∀ (itemID offerID action : String) (counterPrice : Option String)
      (upstream : RespondPayload → UpstreamOutcome) (hasMsg : Bool) (e : String),
      pyStripStr itemID ≠ "" → pyStripStr offerID ≠ "" →
      (upstream (respondPayload itemID offerID action counterPrice) = .raised e →
        hasKnownErrorCode e = true →
        respond_to_offer itemID offerID action counterPrice upstream hasMsg =
          { upstreamCalls := [respondPayload itemID offerID action counterPrice]
            sentMessages := [unavailableMessage]
            messageDeleted := false }) ∧
      (upstream (respondPayload itemID offerID action counterPrice) = .raised e →
        hasKnownErrorCode e = false →
        respond_to_offer itemID offerID action counterPrice upstream hasMsg =
          { upstreamCalls := [respondPayload itemID offerID action counterPrice]
            sentMessages := [failMessage action (pyStripStr offerID) e]
            messageDeleted := false }) ∧
      (upstream (respondPayload itemID offerID action counterPrice) = .ok →
        respond_to_offer itemID offerID action counterPrice upstream hasMsg =
          { upstreamCalls := [respondPayload itemID offerID action counterPrice]
            sentMessages := [successMessage action (pyStripStr offerID) (pyStripStr itemID)]
            messageDeleted := hasMsg }) := by
  intro itemID offerID action counterPrice upstream hasMsg e hi ho
  refine ⟨?_, ?_, ?_⟩
  · intro hu hk
    simp only [respond_to_offer]
    rw [if_neg (by push_neg; exact ⟨hi, ho⟩), hu]
    dsimp only
    rw [if_pos hk]
  · intro hu hk
    simp only [respond_to_offer]
    rw [if_neg (by push_neg; exact ⟨hi, ho⟩), hu]
    dsimp only
    rw [if_neg (by rw [hk]; exact Bool.false_ne_true)]
  · intro hu
    simp only [respond_to_offer]
    rw [if_neg (by push_neg; exact ⟨hi, ho⟩), hu]

/-- Claim C9, witness: a known withdrawn-offer code (21929) collapses to
the fixed "no longer available" message, an unknown code is surfaced
verbatim, and a successful `Accept` deletes the posted detail view —
each obtained from the classification theorem at concrete inputs. -/
theorem C9_witness :
    (respond_to_offer "11" "22" "Accept" none
        (fun _ => .raised "RespondToBestOffer: Class: RequestError, Code: 21929, it was withdrawn") true =
      { upstreamCalls := [respondPayload "11" "22" "Accept" none]
        sentMessages := [unavailableMessage]
        messageDeleted := false }) ∧
    (respond_to_offer "11" "22" "Accept" none (fun _ => .raised "Code: 99999, boom") true =
      { upstreamCalls := [respondPayload "11" "22" "Accept" none]
        sentMessages := [failMessage "Accept" "22" "Code: 99999, boom"]
        messageDeleted := false }) ∧
    (respond_to_offer "11" "22" "Accept" none (fun _ => .ok) true =
      { upstreamCalls := [respondPayload "11" "22" "Accept" none]
        sentMessages := [successMessage "Accept" "22" "11"]
        messageDeleted := true }) :=
  ⟨(C9_error_classification "11" "22" "Accept" none
      (fun _ => .raised "RespondToBestOffer: Class: RequestError, Code: 21929, it was withdrawn")
      true "RespondToBestOffer: Class: RequestError, Code: 21929, it was withdrawn"
      (by decide) (by decide)).1 rfl (by decide),
   (C9_error_classification "11" "22" "Accept" none
      (fun _ => .raised "Code: 99999, boom") true "Code: 99999, boom"
      (by decide) (by decide)).2.1 rfl (by decide),
   (C9_error_classification "11" "22" "Accept" none
      (fun _ => .ok) true "unused"
      (by decide) (by decide)).2.2 rfl⟩

/-! ## Claim C4: price coercion -/

/-- A raw offer whose `Price.value` is the malformed string `"abc"`. -/
def badPriceOffer : RawOffer :=
  { sampleRawOffer with
    bestOfferID := some "500002"
    price := some { value := some "abc", currencyID := some "USD" } }

/-- A listing carrying `badPriceOffer`. -/
def badPriceItem : RawItemBestOffers :=
  { item := some { itemID := some "222", title := some "Bad", buyItNowPrice := some samplePrice }
    bestOffers := [badPriceOffer] }

/-- A listing whose `BuyItNowPrice.value` is malformed. -/
def badBinItem : RawItemBestOffers :=
  { item := some { itemID := some "333", title := some "BadBin"
                   buyItNowPrice := some { value := some "abc", currencyID := some "USD" } }
    bestOffers := [sampleRawOffer] }

/-- Claim C4, counterexample: a malformed price does *not* default to
zero — `float("abc")` raises, so extracting a page whose second listing
carries `Price.value = "abc"` fails outright and the first listing's
offer is lost with it, contradicting "a missing or malformed value
yields zero without failing extraction of the rest of the page"
(a page with the well-formed listing alone extracts fine). -/
theorem C4_counterexample :
    extractPage "d" [sampleItem, badPriceItem] = .error () ∧
    extractPage "d" [badPriceItem, sampleItem] = .error () ∧
    extractPage "d" [sampleItem] = .ok ([sampleExtracted], [some "111"]) := by
  refine ⟨by with_unfolding_all decide, by with_unfolding_all decide,
    by with_unfolding_all decide⟩

/-- Claim C4, amended: price-like fields (`BuyItNowPrice.value`, the
offer's `Price.value`) parse as decimals and a *missing* value defaults
to zero without failing extraction; a *malformed* value, however,
raises (`float` `ValueError`), aborting extraction of the entire page
— nothing of that page survives. -/
theorem C4_price_coercion :
    (coercePrice none = some 0) ∧
    (∀ c, coercePrice (some { value := none, currencyID := c }) = some 0) ∧
    (∀ s q c, pyFloat? s = some q →
       coercePrice (some { value := some s, currencyID := c }) = some q) ∧
    (∀ s c, pyFloat? s = none →
       coercePrice (some { value := some s, currencyID := c }) = none) ∧
    (∀ (d : String) (iid : Option String) (t : String) (bp : ℚ) (bc : String)
       (o : RawOffer) (r : Offer),
       extractOffer d iid t bp bc o = .ok (some r) → o.price = none →
       r.offerAmount = 0) ∧
    (∀ (d : String) (iid : Option String) (t : String) (bp : ℚ) (bc : String)
       (o : RawOffer),
       o.bestOfferCodeType ≠ some "SellerCounterOffer" →
       (o.status = some "Pending" ∨ o.status = some "Expired") →
       coercePrice o.price = none →
       extractOffer d iid t bp bc o = .error ()) ∧
    (∀ (d : String) (it : RawItemBestOffers),
       coercePrice ((it.item.getD emptyItemInfo).buyItNowPrice) = none →
       extractItem d it = .error ()) := by
  refine ⟨rfl, fun c => rfl, ?_, ?_, ?_, ?_, ?_⟩
  · intro s q c h
    simp only [coercePrice, Option.some_bind]
    exact h
  · intro s c h
    simp only [coercePrice, Option.some_bind]
    exact h
  · intro d iid t bp bc o r h hp
    unfold extractOffer at h
    split at h
    · exact absurd h (by simp)
    · split at h
      · exact absurd h (by simp)
      · rw [hp] at h
        simp only [coercePrice, Option.none_bind] at h
        split at h
        · exact absurd h (by simp)
        · exact absurd h (by simp)
        · rename_i amount qty ha hq
          rw [Except.ok.injEq, Option.some.injEq] at h
          subst h
          cases ha
          rfl
  · intro d iid t bp bc o h1 h2 hc
    unfold extractOffer
    rw [if_neg h1, if_neg (not_not.mpr h2), hc]
  · intro d it hc
    simp only [extractItem]
    rw [hc]

/-- Claim C4, witness: the coercions instantiated on `"10"` (parses),
a missing value (defaults to zero), `"abc"` (raises), and the offer /
listing shapes that carry them. -/
theorem C4_witness :
    coercePrice (some { value := some "10", currencyID := some "USD" }) = some 10 ∧
    coercePrice (some { value := none, currencyID := some "USD" }) = some 0 ∧
    coercePrice (some { value := some "abc", currencyID := some "USD" }) = none ∧
    extractOffer "d" (some "111") "Sample" 10 "USD" badPriceOffer = .error () ∧
    extractItem "d" badBinItem = .error () ∧
    (∀ r : Offer,
      extractOffer "d" (some "111") "Sample" 10 "USD"
        { sampleRawOffer with price := none } = .ok (some r) → r.offerAmount = 0) := by
  refine ⟨C4_price_coercion.2.2.1 "10" 10 (some "USD") (by with_unfolding_all decide),
    C4_price_coercion.2.1 (some "USD"),
    C4_price_coercion.2.2.2.1 "abc" (some "USD") (by decide),
    C4_price_coercion.2.2.2.2.2.1 "d" (some "111") "Sample" 10 "USD" badPriceOffer
      (by decide) (by decide) (by decide),
    C4_price_coercion.2.2.2.2.2.2 "d" badBinItem (by decide),
    fun r h => C4_price_coercion.2.2.2.2.1 "d" (some "111") "Sample" 10 "USD"
      { sampleRawOffer with price := none } r h rfl⟩

/-! ## Claim C5: alert-flag persistence timing -/

/-- Is the event a store persist (`to_excel`)? -/
def isPersistEvent : NotifyEvent → Bool
  | .persisted _ => true
  | _ => false

/-- Row `i` of the frame carries `ChannelNotified = "Y"`. -/
def notifiedAt (df : List Offer) (i : ℕ) : Prop :=
  (df[i]?).map (fun r => r.channelNotified) = some (some "Y")

theorem onReadyStep_length {ctx : AlertCtx} {df : List Offer} {e : ℕ × Offer} :
    (onReadyStep ctx df e).1.length = df.length := by
  simp only [onReadyStep]
  split
  · rfl
  · split
    · rfl
    · split
      · rfl
      · split
        · unfold setNotified
          split
          · exact List.length_set df e.1 _
          · rfl
        · rfl

theorem onReadyStep_no_persist {ctx : AlertCtx} {df : List Offer} {e : ℕ × Offer} :
    ∀ ev ∈ (onReadyStep ctx df e).2, isPersistEvent ev = false := by
  simp only [onReadyStep]
  split
  · intro ev hev
    rw [List.mem_singleton.mp hev]
    rfl
  · split
    · intro ev hev
      rw [List.mem_singleton.mp hev]
      rfl
    · split
      · intro ev hev
        rw [List.mem_singleton.mp hev]
        rfl
      · split
        · intro ev hev
          rw [List.mem_singleton.mp hev]
          rfl
        · intro ev hev
          rw [List.mem_singleton.mp hev]
          rfl

theorem setNotified_self {df : List Offer} {i : ℕ} (h : i < df.length) :
    notifiedAt (setNotified df i) i := by
  unfold setNotified notifiedAt
  obtain ⟨r, hr⟩ : ∃ r, df[i]? = some r := ⟨df[i], List.getElem?_eq_getElem h⟩
  rw [hr, List.getElem?_set_self', hr]
  rfl

theorem setNotified_mono {df : List Offer} {i j : ℕ} (h : notifiedAt df i) :
    notifiedAt (setNotified df j) i := by
  by_cases hij : i = j
  · subst hij
    unfold notifiedAt at h
    have hi : i < df.length := by
      cases hd : df[i]? with
      | none => rw [hd] at h; exact absurd h (by simp)
      | some r => exact (List.getElem?_eq_some.mp hd).1
    exact setNotified_self hi
  · unfold setNotified
    cases hd : df[j]? with
    | none => exact h
    | some r =>
      unfold notifiedAt
      rw [List.getElem?_set_ne (fun hji => hij hji.symm)]
      exact h

theorem onReadyStep_mono {ctx : AlertCtx} {df : List Offer} {e : ℕ × Offer} {i : ℕ}
    (h : notifiedAt df i) : notifiedAt (onReadyStep ctx df e).1 i := by
  simp only [onReadyStep]
  split
  · exact h
  · split
    · exact h
    · split
      · exact h
      · split
        · exact setNotified_mono h
        · exact h

theorem onReadyStep_alert_notified {ctx : AlertCtx} {df : List Offer} {e : ℕ × Offer}
    {i : ℕ} (hlen : e.1 < df.length)
    (h : NotifyEvent.alertSent i ∈ (onReadyStep ctx df e).2) :
    notifiedAt (onReadyStep ctx df e).1 i := by
  revert h
  simp only [onReadyStep]
  split
  · intro h
    exact absurd (List.mem_singleton.mp h) (by simp)
  · split
    · intro h
      exact absurd (List.mem_singleton.mp h) (by simp)
    · split
      · intro h
        exact absurd (List.mem_singleton.mp h) (by simp)
      · split
        · intro h
          have he := List.mem_singleton.mp h
          injection he with he1
          subst he1
          exact setNotified_self hlen
        · intro h
          exact absurd (List.mem_singleton.mp h) (by simp)

theorem onReadyLoop_length {ctx : AlertCtx} :
    ∀ (un : List (ℕ × Offer)) (df : List Offer),
    (onReadyLoop ctx un df).1.length = df.length := by
  intro un
  induction un with
  | nil => intro df; rfl
  | cons e rest ih =>
    intro df
    show (onReadyLoop ctx rest (onReadyStep ctx df e).1).1.length = df.length
    rw [ih (onReadyStep ctx df e).1, onReadyStep_length]

theorem onReadyLoop_no_persist {ctx : AlertCtx} :
    ∀ (un : List (ℕ × Offer)) (df : List Offer),
    ∀ ev ∈ (onReadyLoop ctx un df).2, isPersistEvent ev = false := by
  intro un
  induction un with
  | nil =>
    intro df ev hev
    cases hev
  | cons e rest ih =>
    intro df ev hev
    rcases List.mem_append.mp hev with hm | hm
    · exact onReadyStep_no_persist ev hm
    · exact ih (onReadyStep ctx df e).1 ev hm

theorem onReadyLoop_mono {ctx : AlertCtx} :
    ∀ (un : List (ℕ × Offer)) (df : List Offer) (i : ℕ),
    notifiedAt df i → notifiedAt (onReadyLoop ctx un df).1 i := by
  intro un
  induction un with
  | nil => intro df i h; exact h
  | cons e rest ih =>
    intro df i h
    exact ih (onReadyStep ctx df e).1 i (onReadyStep_mono h)

theorem onReadyLoop_alert_notified {ctx : AlertCtx} :
    ∀ (un : List (ℕ × Offer)) (df : List Offer),
    (∀ p ∈ un, p.1 < df.length) →
    ∀ i, NotifyEvent.alertSent i ∈ (onReadyLoop ctx un df).2 →
    notifiedAt (onReadyLoop ctx un df).1 i := by
  intro un
  induction un with
  | nil =>
    intro df _ i h
    cases h
  | cons e rest ih =>
    intro df hlen i h
    rcases List.mem_append.mp h with hm | hm
    · exact onReadyLoop_mono rest (onReadyStep ctx df e).1 i
        (onReadyStep_alert_notified (hlen e (List.mem_cons_self e rest)) hm)
    · refine ih (onReadyStep ctx df e).1 ?_ i hm
      intro p hp
      rw [onReadyStep_length]
      exact hlen p (List.mem_cons_of_mem e hp)

/-- The ordering discipline claim C5 asserts: between any two successful
alert events there is a store persist (so each alerted offer's flag is
durable before the next offer is processed). -/
def persistSeparatesAlerts (evs : List NotifyEvent) : Prop :=
  ∀ (p q i j : ℕ), p < q → evs[p]? = some (NotifyEvent.alertSent i) →
    evs[q]? = some (NotifyEvent.alertSent j) →
    ∃ (r : ℕ) (rows : List Offer), p < r ∧ r < q ∧
      evs[r]? = some (NotifyEvent.persisted rows)

/-- The alert environment used by the concrete notifier runs: the SKU
`widget` maps to channel 5, the channel exists, every send succeeds. -/
def sampleAlertCtx : AlertCtx :=
  { channelMap := [("widget", 5)]
    channelExists := fun _ => true
    sendOk := fun _ => true }

/-- Claim C5, counterexample: dispatching two unnotified offers produces
the trace `[alertSent 0, alertSent 1, persisted …]` — the store is
written once, *after* the whole batch, so no persist separates the two
alerts: an offer's `channelAlerted` flag is not durable before the next
offer is processed, and a crash mid-batch would re-alert offer 0. -/
theorem C5_counterexample :
    ¬ persistSeparatesAlerts
      (run_discord_alerts sampleAlertCtx [sampleStored, dupStored]).2 := by
  intro hcl
  obtain ⟨r, rows, h1, h2, _⟩ := hcl 0 1 0 1 (by decide)
    (by with_unfolding_all decide) (by with_unfolding_all decide)
  omega

/-- Claim C5, amended: for every offer the dispatcher alerts
successfully, the `channelAlerted` flag is set in the *in-memory* frame
immediately, but the store is persisted exactly once, at the end of the
batch, carrying the final frame in which every successfully-alerted
offer is flagged `"Y"` — so a completed batch is never re-alerted on
the next run, while a crash mid-batch loses all of the batch's flags. -/
theorem C5_alert_persistence :
    ∀ (ctx : AlertCtx) (df : List Offer),
      (run_discord_alerts ctx df).2.getLast? =
        some (.persisted (run_discord_alerts ctx df).1) ∧
      (∀ ev ∈ (run_discord_alerts ctx df).2.dropLast, isPersistEvent ev = false) ∧
      (∀ i, NotifyEvent.alertSent i ∈ (run_discord_alerts ctx df).2 →
        notifiedAt (run_discord_alerts ctx df).1 i) := by
  intro ctx df
  unfold run_discord_alerts on_ready
  refine ⟨List.getLast?_concat _, ?_, ?_⟩
  · rw [List.dropLast_concat]
    exact onReadyLoop_no_persist _ df
  · intro i h
    rcases List.mem_append.mp h with hm | hm
    · refine onReadyLoop_alert_notified _ df ?_ i hm
      intro p hp
      have hpe := List.mem_of_mem_filter hp
      have := List.mem_enum_iff_getElem?.mp hpe
      exact (List.getElem?_eq_some.mp this).1
    · exact absurd (List.mem_singleton.mp hm) (by simp)

/-- Claim C5, witness: the amended statement instantiated on the
two-offer batch — the final frame flags both rows, and the single
persist closes the trace. -/
theorem C5_witness :
    ((run_discord_alerts sampleAlertCtx [sampleStored, dupStored]).2.getLast? =
      some (.persisted (run_discord_alerts sampleAlertCtx [sampleStored, dupStored]).1)) ∧
    notifiedAt (run_discord_alerts sampleAlertCtx [sampleStored, dupStored]).1 0 ∧
    notifiedAt (run_discord_alerts sampleAlertCtx [sampleStored, dupStored]).1 1 := by
  obtain ⟨h1, _, h3⟩ := C5_alert_persistence sampleAlertCtx [sampleStored, dupStored]
  exact ⟨h1, h3 0 (by with_unfolding_all decide), h3 1 (by with_unfolding_all decide)⟩

/-! ## Claim C6: per-page failure handling -/

/-- Page 1 of the flaky upstream: one good listing, reported total of
three pages. -/
def flakyPage1 : RawPage :=
  { ack := some "Success"
    itemBestOffersArray := some [sampleItem]
    totalNumberOfPages := some 3 }

/-- The page-3 offer the 2-hour script loses. -/
def offerPage3 : RawOffer := { sampleRawOffer with bestOfferID := some "500003" }

/-- The page-3 listing. -/
def itemPage3 : RawItemBestOffers :=
  { item := some { itemID := some "444", title := some "Sample", buyItNowPrice := some samplePrice }
    bestOffers := [offerPage3] }

/-- Page 3 of the flaky upstream. -/
def flakyPage3 : RawPage :=
  { ack := some "Success"
    itemBestOffersArray := some [itemPage3]
    totalNumberOfPages := some 3 }

/-- An upstream whose page 2 raises while pages 1 and 3 are fine. -/
def flakyFetch : ℕ → FetchResult := fun p =>
  if p = 1 then .ok flakyPage1
  else if p = 2 then .exn
  else if p = 3 then .ok flakyPage3
  else .exn

/-- The record page 3 extracts. -/
def extractedPage3 : Offer :=
  { sampleExtracted with itemID := some "444", bestOfferID := "500003" }

/-- An upstream that always answers with a `Failure` ack. -/
def failAckFetch : ℕ → FetchResult := fun _ =>
  .ok { ack := some "Failure", itemBestOffersArray := some [sampleItem]
        totalNumberOfPages := some 1 }

/-- Claim C6, counterexample: with page 2 of three raising a transient
error, the 2-hour script's loop `break`s — page 3 is never requested
and its offer is dropped from the cycle, contradicting "the loop
advances to the next page rather than aborting the cycle".  The hourly
script does advance and retains page 3's offer. -/
theorem C6_counterexample :
    (twoHourLoop flakyFetch "d" MAX_PAGES 1 none ⟨[], []⟩).1 = [1, 2] ∧
    (twoHourLoop flakyFetch "d" MAX_PAGES 1 none ⟨[], []⟩).2 =
      .ok ⟨[sampleExtracted], [some "111"]⟩ ∧
    (hourlyLoop flakyFetch "d" MAX_PAGES 1 none ⟨[], []⟩).1 = [1, 2, 3] ∧
    (hourlyLoop flakyFetch "d" MAX_PAGES 1 none ⟨[], []⟩).2 =
      .ok ⟨[sampleExtracted, extractedPage3], [some "111", some "444"]⟩ := by
  refine ⟨by with_unfolding_all decide, by with_unfolding_all decide,
    by with_unfolding_all decide, by with_unfolding_all decide⟩

/-- Claim C6, amended: in `get_offers_every_hour.py` a transient
per-page failure (API exception or non-`Success`/`Warning` ack)
advances the loop to the next page, isolating the bad page; in
`get_offers_every_2_hours.py` the same failures `break` the pagination
loop immediately — offers extracted from earlier pages are kept, but
all later pages of that cycle are abandoned. -/
theorem C6_page_failure_handling :
    (∀ (f : ℕ → FetchResult) (d : String) (fuel page : ℕ) (total : Option ℤ)
       (acc : SyncAcc), f page = .exn →
       hourlyLoop f d (fuel + 1) page total acc =
         (page :: (hourlyLoop f d fuel (page + 1) total acc).1,
          (hourlyLoop f d fuel (page + 1) total acc).2)) ∧
    (∀ (f : ℕ → FetchResult) (d : String) (fuel page : ℕ) (total : Option ℤ)
       (acc : SyncAcc) (pg : RawPage), f page = .ok pg →
       ¬ (pg.ack = some "Success" ∨ pg.ack = some "Warning") →
       hourlyLoop f d (fuel + 1) page total acc =
         (page :: (hourlyLoop f d fuel (page + 1) total acc).1,
          (hourlyLoop f d fuel (page + 1) total acc).2)) ∧
    (∀ (f : ℕ → FetchResult) (d : String) (fuel page : ℕ) (total : Option ℤ)
       (acc : SyncAcc), f page = .exn →
       twoHourLoop f d (fuel + 1) page total acc = ([page], .ok acc)) ∧
    (∀ (f : ℕ → FetchResult) (d : String) (fuel page : ℕ) (total : Option ℤ)
       (acc : SyncAcc) (pg : RawPage), f page = .ok pg →
       ¬ (pg.ack = some "Success" ∨ pg.ack = some "Warning") →
       twoHourLoop f d (fuel + 1) page total acc = ([page], .ok acc)) := by
  refine ⟨?_, ?_, ?_, ?_⟩
  · intro f d fuel page total acc hf
    simp only [hourlyLoop, hf]
  · intro f d fuel page total acc pg hf hack
    simp only [hourlyLoop, hf]
    rw [if_pos hack]
  · intro f d fuel page total acc hf
    simp only [twoHourLoop, hf]
  · intro f d fuel page total acc pg hf hack
    simp only [twoHourLoop, hf]
    rw [if_pos hack]

/-- Claim C6, witness: the four behaviours instantiated at concrete
pages of `flakyFetch` / `failAckFetch`. -/
theorem C6_witness :
    (hourlyLoop flakyFetch "d" 599 2 (some 3) ⟨[sampleExtracted], [some "111"]⟩ =
      (2 :: (hourlyLoop flakyFetch "d" 598 3 (some 3)
          ⟨[sampleExtracted], [some "111"]⟩).1,
       (hourlyLoop flakyFetch "d" 598 3 (some 3)
          ⟨[sampleExtracted], [some "111"]⟩).2)) ∧
    (hourlyLoop failAckFetch "d" 600 1 none ⟨[], []⟩ =
      (1 :: (hourlyLoop failAckFetch "d" 599 2 none ⟨[], []⟩).1,
       (hourlyLoop failAckFetch "d" 599 2 none ⟨[], []⟩).2)) ∧
    (twoHourLoop flakyFetch "d" 599 2 (some 3) ⟨[sampleExtracted], [some "111"]⟩ =
      ([2], .ok ⟨[sampleExtracted], [some "111"]⟩)) ∧
    (twoHourLoop failAckFetch "d" 600 1 none ⟨[], []⟩ = ([1], .ok ⟨[], []⟩)) :=
  ⟨C6_page_failure_handling.1 flakyFetch "d" 598 2 (some 3)
      ⟨[sampleExtracted], [some "111"]⟩ (by decide),
   C6_page_failure_handling.2.1 failAckFetch "d" 599 1 none ⟨[], []⟩
      { ack := some "Failure", itemBestOffersArray := some [sampleItem]
        totalNumberOfPages := some 1 } rfl (by decide),
   C6_page_failure_handling.2.2.1 flakyFetch "d" 598 2 (some 3)
      ⟨[sampleExtracted], [some "111"]⟩ (by decide),
   C6_page_failure_handling.2.2.2 failAckFetch "d" 599 1 none ⟨[], []⟩
      { ack := some "Failure", itemBestOffersArray := some [sampleItem]
        totalNumberOfPages := some 1 } rfl (by decide)⟩

/-! ## Claim C10: a cycle extracting zero offers never touches the store -/

/-- Claim C10: if an ingestion cycle extracts zero offers across all
pages, the cycle performs no access to the persisted store at all —
the hourly script returns before the `os.path.exists` check (store
neither created, read, nor rewritten, result `ok` with the store
unchanged), and the 2-hour script dies on the empty frame's missing
`ItemID` column (an exception, again before any store access), so in
both scripts the store's contents and existence are exactly as before
the cycle. -/
theorem C10_empty_cycle_frame :
    (∀ (f : ℕ → FetchResult) (skuF : Option String → String) (d : String)
       (acc : SyncAcc),
       (hourlyLoop f d MAX_PAGES 1 none ⟨[], []⟩).2 = .ok acc → acc.offers = [] →
       hourlyNewBatch f skuF d = .ok []) ∧
    (∀ (f : ℕ → FetchResult) (skuF : Option String → String) (d : String)
       (store : Option (List Offer)),
       hourlyNewBatch f skuF d = .ok [] →
       run_offer_sync_hourly f skuF d store = (.ok store, [])) ∧
    (∀ (f : ℕ → FetchResult) (skuF : Option String → String) (d : String)
       (store : Option (List Offer)) (acc : SyncAcc),
       (twoHourLoop f d MAX_PAGES 1 none ⟨[], []⟩).2 = .ok acc → acc.offers = [] →
       run_offer_sync_2h f skuF d store = (.error (), [])) := by
  refine ⟨?_, ?_, ?_⟩
  · intro f skuF d acc hloop hoffers
    simp only [hourlyNewBatch]
    rw [hloop]
    simp [attachSkus, hoffers]
  · intro f skuF d store hb
    unfold run_offer_sync_hourly
    rw [hb]
  · intro f skuF d store acc hloop hoffers
    unfold run_offer_sync_2h
    simp only [twoHourNewBatch]
    rw [hloop]
    simp [attachSkus, hoffers]

/-- An upstream whose page 1 has no `ItemBestOffersArray` at all. -/
def emptyFetch : ℕ → FetchResult := fun _ =>
  .ok { ack := some "Success", itemBestOffersArray := none, totalNumberOfPages := some 1 }

/-- Claim C10, witness: against `emptyFetch` (no offers anywhere) the
hourly cycle leaves an existing one-row store untouched with no store
events, and the 2-hour cycle raises before touching it. -/
theorem C10_witness :
    run_offer_sync_hourly emptyFetch sampleSkuFetch "d" (some [sampleStored]) =
      (.ok (some [sampleStored]), []) ∧
    run_offer_sync_hourly emptyFetch sampleSkuFetch "d" none = (.ok none, []) ∧
    run_offer_sync_2h emptyFetch sampleSkuFetch "d" (some [sampleStored]) =
      (.error (), []) :=
  ⟨C10_empty_cycle_frame.2.1 emptyFetch sampleSkuFetch "d" (some [sampleStored])
     (C10_empty_cycle_frame.1 emptyFetch sampleSkuFetch "d" ⟨[], []⟩
       (by with_unfolding_all decide) rfl),
   C10_empty_cycle_frame.2.1 emptyFetch sampleSkuFetch "d" none
     (C10_empty_cycle_frame.1 emptyFetch sampleSkuFetch "d" ⟨[], []⟩
       (by with_unfolding_all decide) rfl),
   C10_empty_cycle_frame.2.2 emptyFetch sampleSkuFetch "d" (some [sampleStored]) ⟨[], []⟩
     (by with_unfolding_all decide) rfl⟩

/-! ## Claim C8: pagination discipline -/

theorem hourlyLoop_requests_range {f : ℕ → FetchResult} {d : String} :
    ∀ (fuel page : ℕ) (total : Option ℤ) (acc : SyncAcc),
    ∃ k ≤ fuel, (hourlyLoop f d fuel page total acc).1 = List.range' page k := by
  intro fuel
  induction fuel with
  | zero =>
    intro page total acc
    exact ⟨0, le_refl 0, rfl⟩
  | succ fuel ih =>
    intro page total acc
    simp only [hourlyLoop]
    split
    · obtain ⟨k, hk, hr⟩ := ih (page + 1) total acc
      exact ⟨k + 1, by omega, by rw [hr]; rfl⟩
    · split
      · obtain ⟨k, hk, hr⟩ := ih (page + 1) total acc
        exact ⟨k + 1, by omega, by rw [hr]; rfl⟩
      · split
        · split
          · exact ⟨1, by omega, rfl⟩
          · obtain ⟨k, hk, hr⟩ := ih (page + 1) total acc
            exact ⟨k + 1, by omega, by rw [hr]; rfl⟩
        · split
          · exact ⟨1, by omega, rfl⟩
          · split
            · exact ⟨1, by omega, rfl⟩
            · rename_i items _ offs ids hex t
              obtain ⟨k, hk, hr⟩ := ih (page + 1) _ (addPage acc offs ids)
              exact ⟨k + 1, by omega, by rw [hr]; rfl⟩

theorem twoHourLoop_requests_range {f : ℕ → FetchResult} {d : String} :
    ∀ (fuel page : ℕ) (total : Option ℤ) (acc : SyncAcc),
    ∃ k ≤ fuel, (twoHourLoop f d fuel page total acc).1 = List.range' page k := by
  intro fuel
  induction fuel with
  | zero =>
    intro page total acc
    exact ⟨0, le_refl 0, rfl⟩
  | succ fuel ih =>
    intro page total acc
    simp only [twoHourLoop]
    split
    · exact ⟨1, by omega, rfl⟩
    · split
      · exact ⟨1, by omega, rfl⟩
      · split
        · exact ⟨1, by omega, rfl⟩
        · split
          · exact ⟨1, by omega, rfl⟩
          · split
            · exact ⟨1, by omega, rfl⟩
            · rename_i offs ids hex t
              obtain ⟨k, hk, hr⟩ := ih (page + 1) _ (addPage acc offs ids)
              exact ⟨k + 1, by omega, by rw [hr]; rfl⟩

/-- Two fetch results that agree on everything except the reported
`TotalNumberOfPages`. -/
def sameExceptTotal : FetchResult → FetchResult → Prop
  | .exn, .exn => True
  | .ok p, .ok q => p.ack = q.ack ∧ p.itemBestOffersArray = q.itemBestOffersArray
  | _, _ => False

theorem hourlyLoop_total_frozen {f f' : ℕ → FetchResult} {d : String}
    (hagree : ∀ p, sameExceptTotal (f p) (f' p)) :
    ∀ (fuel page : ℕ) (t : ℤ) (acc : SyncAcc),
    hourlyLoop f d fuel page (some t) acc = hourlyLoop f' d fuel page (some t) acc := by
  intro fuel
  induction fuel with
  | zero => intro page t acc; rfl
  | succ fuel ih =>
    intro page t acc
    have hp := hagree page
    cases hf : f page with
    | exn =>
      cases hf' : f' page with
      | exn =>
        simp only [hourlyLoop, hf, hf']
        rw [ih (page + 1) t acc]
      | ok q =>
        rw [hf, hf'] at hp
        exact absurd hp (by simp [sameExceptTotal])
    | ok p =>
      cases hf' : f' page with
      | exn =>
        rw [hf, hf'] at hp
        exact absurd hp (by simp [sameExceptTotal])
      | ok q =>
        rw [hf, hf'] at hp
        obtain ⟨hack, harr⟩ := hp
        simp only [hourlyLoop, hf, hf', ← hack, ← harr]
        repeat' split
        all_goals first
          | rfl
          | rw [ih (page + 1) t _]

theorem twoHourLoop_total_frozen {f f' : ℕ → FetchResult} {d : String}
    (hagree : ∀ p, sameExceptTotal (f p) (f' p)) :
    ∀ (fuel page : ℕ) (t : ℤ) (acc : SyncAcc),
    twoHourLoop f d fuel page (some t) acc = twoHourLoop f' d fuel page (some t) acc := by
  intro fuel
  induction fuel with
  | zero => intro page t acc; rfl
  | succ fuel ih =>
    intro page t acc
    have hp := hagree page
    cases hf : f page with
    | exn =>
      cases hf' : f' page with
      | exn => simp only [twoHourLoop, hf, hf']
      | ok q =>
        rw [hf, hf'] at hp
        exact absurd hp (by simp [sameExceptTotal])
    | ok p =>
      cases hf' : f' page with
      | exn =>
        rw [hf, hf'] at hp
        exact absurd hp (by simp [sameExceptTotal])
      | ok q =>
        rw [hf, hf'] at hp
        obtain ⟨hack, harr⟩ := hp
        simp only [twoHourLoop, hf, hf', ← hack, ← harr]
        repeat' split
        all_goals first
          | rfl
          | rw [ih (page + 1) t _]

/-- All pages up to `t` respond successfully with a non-empty item list,
a constant reported total of `t`, and cleanly extractable contents. -/
def steadyUpstream (f : ℕ → FetchResult) (d : String) (t : ℕ) : Prop :=
  ∀ p, 1 ≤ p → p ≤ t → ∃ (pg : RawPage) (items : List RawItemBestOffers)
    (offs : List Offer) (ids : List (Option String)),
    f p = .ok pg ∧ pg.ack = some "Success" ∧ pg.itemBestOffersArray = some items ∧
    items ≠ [] ∧ pg.totalNumberOfPages = some (t : ℤ) ∧
    extractPage d items = .ok (offs, ids)

theorem hourlyLoop_total_reached {f : ℕ → FetchResult} {d : String} {t : ℕ}
    (ht2 : t ≤ MAX_PAGES) (hgood : steadyUpstream f d t) :
    ∀ (fuel page : ℕ) (acc : SyncAcc), page + fuel = MAX_PAGES + 1 → 1 ≤ page →
    page ≤ t →
    (hourlyLoop f d fuel page (some (t : ℤ)) acc).1 =
      List.range' page (t + 1 - page) := by
  intro fuel
  induction fuel with
  | zero =>
    intro page acc hfuel hp1 hpt
    rw [MAX_PAGES] at ht2 hfuel
    omega
  | succ fuel ih =>
    intro page acc hfuel hp1 hpt
    obtain ⟨pg, items, offs, ids, hf, hack, harr, hne, htot, hex⟩ := hgood page hp1 hpt
    simp only [hourlyLoop, hf, hack, harr, hex]
    rw [if_neg (by simp)]
    by_cases hend : page = t
    · subst hend
      rw [if_pos (by omega)]
      have h1 : page + 1 - page = 1 := by omega
      rw [h1]
      rfl
    · rw [if_neg (by omega)]
      rw [ih (page + 1) _ (by omega) (by omega) (by omega)]
      rw [show t + 1 - page = (t + 1 - (page + 1)) + 1 from by omega]
      rfl

theorem twoHourLoop_total_reached {f : ℕ → FetchResult} {d : String} {t : ℕ}
    (ht2 : t ≤ MAX_PAGES) (hgood : steadyUpstream f d t) :
    ∀ (fuel page : ℕ) (acc : SyncAcc), page + fuel = MAX_PAGES + 1 → 1 ≤ page →
    page ≤ t →
    (twoHourLoop f d fuel page (some (t : ℤ)) acc).1 =
      List.range' page (t + 1 - page) := by
  intro fuel
  induction fuel with
  | zero =>
    intro page acc hfuel hp1 hpt
    rw [MAX_PAGES] at ht2 hfuel
    omega
  | succ fuel ih =>
    intro page acc hfuel hp1 hpt
    obtain ⟨pg, items, offs, ids, hf, hack, harr, hne, htot, hex⟩ := hgood page hp1 hpt
    simp only [twoHourLoop, hf, hack, harr, Option.getD_some, hex]
    rw [if_neg (by simp)]
    rw [if_neg (by simp [List.isEmpty_iff, hne])]
    by_cases hend : page = t
    · subst hend
      rw [if_pos (Or.inl (by omega))]
      have h1 : page + 1 - page = 1 := by omega
      rw [h1]
      rfl
    · rw [if_neg (by simp only [MAX_PAGES] at ht2 ⊢; push_neg; omega)]
      rw [ih (page + 1) _ (by omega) (by omega) (by omega)]
      rw [show t + 1 - page = (t + 1 - (page + 1)) + 1 from by omega]
      rfl

theorem hourlyLoop_first_page_total {f f' : ℕ → FetchResult} {d : String}
    (hagree : ∀ p, sameExceptTotal (f p) (f' p)) (heq1 : f' 1 = f 1) :
    ∀ (fuel : ℕ) (acc : SyncAcc) (pg : RawPage) (items : List RawItemBestOffers),
    f 1 = .ok pg → (pg.ack = some "Success" ∨ pg.ack = some "Warning") →
    pg.itemBestOffersArray = some items →
    hourlyLoop f d (fuel + 1) 1 none acc = hourlyLoop f' d (fuel + 1) 1 none acc := by
  intro fuel acc pg items hf hack harr
  have hf' : f' 1 = .ok pg := heq1.trans hf
  simp only [hourlyLoop, hf, hf', harr]
  rw [if_neg (not_not.mpr hack)]
  repeat' split
  all_goals first
    | rfl
    | rw [hourlyLoop_total_frozen hagree fuel 2 _ _]
    | simp_all

theorem twoHourLoop_first_page_total {f f' : ℕ → FetchResult} {d : String}
    (hagree : ∀ p, sameExceptTotal (f p) (f' p)) (heq1 : f' 1 = f 1) :
    ∀ (fuel : ℕ) (acc : SyncAcc) (pg : RawPage),
    f 1 = .ok pg → (pg.ack = some "Success" ∨ pg.ack = some "Warning") →
    twoHourLoop f d (fuel + 1) 1 none acc = twoHourLoop f' d (fuel + 1) 1 none acc := by
  intro fuel acc pg hf hack
  have hf' : f' 1 = .ok pg := heq1.trans hf
  simp only [twoHourLoop, hf, hf']
  rw [if_neg (not_not.mpr hack)]
  repeat' split
  all_goals first
    | rfl
    | rw [twoHourLoop_total_frozen hagree fuel 2 _ _]

/-- Page 2 of the gap upstream: successful ack but no
`ItemBestOffersArray` at all. -/
def gapPage2 : RawPage :=
  { ack := some "Success", itemBestOffersArray := none, totalNumberOfPages := some 3 }

/-- An upstream reporting three pages whose middle page carries no items. -/
def gapFetch : ℕ → FetchResult := fun p =>
  if p = 1 then .ok flakyPage1
  else if p = 2 then .ok gapPage2
  else if p = 3 then .ok flakyPage3
  else .exn

/-- Claim C8, counterexample: in the hourly script a page that returns
no items does *not* terminate the pagination loop unless it is page 1 —
with page 2 of 3 empty, the loop requests pages `[1, 2, 3]` and still
extracts page 3's offer, contradicting the claimed "terminates … when a
page returns no items". -/
theorem C8_counterexample :
    (hourlyLoop gapFetch "d" MAX_PAGES 1 none ⟨[], []⟩).1 = [1, 2, 3] ∧
    (hourlyLoop gapFetch "d" MAX_PAGES 1 none ⟨[], []⟩).2 =
      .ok ⟨[sampleExtracted, extractedPage3], [some "111", some "444"]⟩ := by
  refine ⟨by with_unfolding_all decide, by with_unfolding_all decide⟩

/-- An upstream that is steadily good for two pages (and beyond),
always reporting a total of 2. -/
def steadyFetch : ℕ → FetchResult := fun _ =>
  .ok { ack := some "Success", itemBestOffersArray := some [sampleItem]
        totalNumberOfPages := some 2 }

/-- `steadyFetch` with the totals of pages beyond the first replaced by
50 — only page 1's total may matter. -/
def steadyFetchAlt : ℕ → FetchResult := fun p =>
  if p = 1 then
    .ok { ack := some "Success", itemBestOffersArray := some [sampleItem]
          totalNumberOfPages := some 2 }
  else
    .ok { ack := some "Success", itemBestOffersArray := some [sampleItem]
          totalNumberOfPages := some 50 }

/-- Claim C8, amended: both ingestion loops start at page 1 and request
consecutive, strictly increasing page numbers, never more than
`MAX_PAGES = 600` of them; against an upstream that is good through a
constant reported total `t ≤ 600`, exactly pages `1..t` are requested;
the total page count is treated as fixed at the first successfully
processed page response (responses differing only in later totals make
no difference); and an empty page terminates the loop *only* in the
2-hour script — the hourly script terminates on an empty page only when
it is page 1, and merely skips an empty later page. -/
theorem C8_pagination :
    (∀ (f : ℕ → FetchResult) (d : String), ∃ k ≤ MAX_PAGES,
       (hourlyLoop f d MAX_PAGES 1 none ⟨[], []⟩).1 = List.range' 1 k) ∧
    (∀ (f : ℕ → FetchResult) (d : String), ∃ k ≤ MAX_PAGES,
       (twoHourLoop f d MAX_PAGES 1 none ⟨[], []⟩).1 = List.range' 1 k) ∧
    (∀ (f : ℕ → FetchResult) (d : String) (t : ℕ), 1 ≤ t → t ≤ MAX_PAGES →
       steadyUpstream f d t →
       (hourlyLoop f d MAX_PAGES 1 none ⟨[], []⟩).1 = List.range' 1 t) ∧
    (∀ (f : ℕ → FetchResult) (d : String) (t : ℕ), 1 ≤ t → t ≤ MAX_PAGES →
       steadyUpstream f d t →
       (twoHourLoop f d MAX_PAGES 1 none ⟨[], []⟩).1 = List.range' 1 t) ∧
    (∀ (f : ℕ → FetchResult) (d : String) (fuel : ℕ) (total : Option ℤ)
       (acc : SyncAcc) (pg : RawPage), f 1 = .ok pg →
       (pg.ack = some "Success" ∨ pg.ack = some "Warning") →
       pg.itemBestOffersArray = none →
       hourlyLoop f d (fuel + 1) 1 total acc = ([1], .ok acc)) ∧
    (∀ (f : ℕ → FetchResult) (d : String) (fuel page : ℕ) (total : Option ℤ)
       (acc : SyncAcc) (pg : RawPage), f page = .ok pg →
       (pg.ack = some "Success" ∨ pg.ack = some "Warning") →
       pg.itemBestOffersArray = none → page ≠ 1 →
       hourlyLoop f d (fuel + 1) page total acc =
         (page :: (hourlyLoop f d fuel (page + 1) total acc).1,
          (hourlyLoop f d fuel (page + 1) total acc).2)) ∧
    (∀ (f : ℕ → FetchResult) (d : String) (fuel page : ℕ) (total : Option ℤ)
       (acc : SyncAcc) (pg : RawPage), f page = .ok pg →
       (pg.ack = some "Success" ∨ pg.ack = some "Warning") →
       pg.itemBestOffersArray.getD [] = [] →
       twoHourLoop f d (fuel + 1) page total acc = ([page], .ok acc)) ∧
    (∀ (f f' : ℕ → FetchResult) (d : String) (fuel : ℕ) (acc : SyncAcc)
       (pg : RawPage) (items : List RawItemBestOffers),
       (∀ p, sameExceptTotal (f p) (f' p)) → f' 1 = f 1 →
       f 1 = .ok pg → (pg.ack = some "Success" ∨ pg.ack = some "Warning") →
       pg.itemBestOffersArray = some items →
       hourlyLoop f d (fuel + 1) 1 none acc = hourlyLoop f' d (fuel + 1) 1 none acc) ∧
    (∀ (f f' : ℕ → FetchResult) (d : String) (fuel : ℕ) (acc : SyncAcc)
       (pg : RawPage),
       (∀ p, sameExceptTotal (f p) (f' p)) → f' 1 = f 1 →
       f 1 = .ok pg → (pg.ack = some "Success" ∨ pg.ack = some "Warning") →
       twoHourLoop f d (fuel + 1) 1 none acc = twoHourLoop f' d (fuel + 1) 1 none acc) := by
  refine ⟨fun f d => hourlyLoop_requests_range MAX_PAGES 1 none ⟨[], []⟩,
    fun f d => twoHourLoop_requests_range MAX_PAGES 1 none ⟨[], []⟩,
    ?_, ?_, ?_, ?_, ?_, ?_, ?_⟩
  · intro f d t ht1 ht2 hgood
    obtain ⟨pg, items, offs, ids, hf, hack, harr, hne, htot, hex⟩ :=
      hgood 1 (le_refl 1) ht1
    show (hourlyLoop f d (599 + 1) 1 none ⟨[], []⟩).1 = List.range' 1 t
    rw [hourlyLoop, hf]
    dsimp only
    rw [hack]
    rw [if_neg (by simp)]
    rw [harr]
    dsimp only
    rw [hex]
    dsimp only
    rw [htot]
    simp only [Option.getD_some]
    by_cases hone : t = 1
    · subst hone
      rw [if_pos (by omega)]
      rfl
    · rw [if_neg (by omega)]
      have harith1 : (1 + 1) + 599 = MAX_PAGES + 1 := by simp only [MAX_PAGES]
      have harith2 : 1 ≤ 1 + 1 := by omega
      have harith3 : 1 + 1 ≤ t := by omega
      rw [hourlyLoop_total_reached ht2 hgood 599 (1 + 1) _ harith1 harith2 harith3]
      have hsplit : List.range' 1 t = 1 :: List.range' 2 (t + 1 - (1 + 1)) := by
        have ht : t = (t + 1 - (1 + 1)) + 1 := by omega
        nth_rewrite 1 [ht]
        rfl
      rw [hsplit]
  · intro f d t ht1 ht2 hgood
    obtain ⟨pg, items, offs, ids, hf, hack, harr, hne, htot, hex⟩ :=
      hgood 1 (le_refl 1) ht1
    show (twoHourLoop f d (599 + 1) 1 none ⟨[], []⟩).1 = List.range' 1 t
    rw [twoHourLoop, hf]
    dsimp only
    rw [hack]
    rw [if_neg (by simp)]
    rw [harr]
    simp only [Option.getD_some]
    rw [if_neg (by simp [List.isEmpty_iff, hne])]
    rw [hex]
    dsimp only
    rw [htot]
    simp only [Option.getD_some]
    by_cases hone : t = 1
    · subst hone
      rw [if_pos (Or.inl (by omega))]
      rfl
    · rw [if_neg (by simp only [MAX_PAGES]; push_neg; omega)]
      have harith1 : (1 + 1) + 599 = MAX_PAGES + 1 := by simp only [MAX_PAGES]
      have harith2 : 1 ≤ 1 + 1 := by omega
      have harith3 : 1 + 1 ≤ t := by omega
      rw [twoHourLoop_total_reached ht2 hgood 599 (1 + 1) _ harith1 harith2 harith3]
      have hsplit : List.range' 1 t = 1 :: List.range' 2 (t + 1 - (1 + 1)) := by
        have ht : t = (t + 1 - (1 + 1)) + 1 := by omega
        nth_rewrite 1 [ht]
        rfl
      rw [hsplit]
  · intro f d fuel total acc pg hf hack harr
    simp only [hourlyLoop, hf, harr]
    rw [if_neg (not_not.mpr hack)]
    simp
  · intro f d fuel page total acc pg hf hack harr hpage
    simp only [hourlyLoop, hf, harr]
    rw [if_neg (not_not.mpr hack)]
    rw [if_neg hpage]
  · intro f d fuel page total acc pg hf hack hempty
    simp only [twoHourLoop, hf, hempty]
    rw [if_neg (not_not.mpr hack)]
    simp
  · intro f f' d fuel acc pg items hagree heq1 hf hack harr
    exact hourlyLoop_first_page_total hagree heq1 fuel acc pg items hf hack harr
  · intro f f' d fuel acc pg hagree heq1 hf hack
    exact twoHourLoop_first_page_total hagree heq1 fuel acc pg hf hack

/-- Claim C8, witness: the pagination discipline instantiated on
concrete upstreams — a steady two-page upstream is paged `[1, 2]` by
both loops, an upstream with an empty page 1 stops immediately,
`gapFetch`'s empty page 2 is merely skipped by the hourly loop, and
changing only the totals reported after page 1 changes nothing. -/
theorem C8_witness :
    (∃ k ≤ MAX_PAGES,
      (hourlyLoop gapFetch "d" MAX_PAGES 1 none ⟨[], []⟩).1 = List.range' 1 k) ∧
    (∃ k ≤ MAX_PAGES,
      (twoHourLoop gapFetch "d" MAX_PAGES 1 none ⟨[], []⟩).1 = List.range' 1 k) ∧
    (hourlyLoop steadyFetch "d" MAX_PAGES 1 none ⟨[], []⟩).1 = List.range' 1 2 ∧
    (twoHourLoop steadyFetch "d" MAX_PAGES 1 none ⟨[], []⟩).1 = List.range' 1 2 ∧
    hourlyLoop emptyFetch "d" 600 1 none ⟨[], []⟩ = ([1], .ok ⟨[], []⟩) ∧
    (hourlyLoop gapFetch "d" 599 2 (some 3) ⟨[sampleExtracted], [some "111"]⟩ =
      (2 :: (hourlyLoop gapFetch "d" 598 3 (some 3)
          ⟨[sampleExtracted], [some "111"]⟩).1,
       (hourlyLoop gapFetch "d" 598 3 (some 3)
          ⟨[sampleExtracted], [some "111"]⟩).2)) ∧
    twoHourLoop emptyFetch "d" 600 1 none ⟨[], []⟩ = ([1], .ok ⟨[], []⟩) ∧
    (hourlyLoop steadyFetch "d" 600 1 none ⟨[], []⟩ =
      hourlyLoop steadyFetchAlt "d" 600 1 none ⟨[], []⟩) ∧
    (twoHourLoop steadyFetch "d" 600 1 none ⟨[], []⟩ =
      twoHourLoop steadyFetchAlt "d" 600 1 none ⟨[], []⟩) := by
  have hsteady : steadyUpstream steadyFetch "d" 2 := by
    intro p hp1 hp2
    exact ⟨_, [sampleItem], [sampleExtracted], [some "111"], rfl, rfl, rfl,
      by simp, rfl, by with_unfolding_all decide⟩
  have hagree : ∀ p, sameExceptTotal (steadyFetch p) (steadyFetchAlt p) := by
    intro p
    by_cases hp : p = 1
    · subst hp
      exact ⟨rfl, rfl⟩
    · simp only [steadyFetch, steadyFetchAlt, if_neg hp]
      exact ⟨rfl, rfl⟩
  refine ⟨C8_pagination.1 gapFetch "d", C8_pagination.2.1 gapFetch "d",
    C8_pagination.2.2.1 steadyFetch "d" 2 (by omega) (by simp [MAX_PAGES]) hsteady,
    C8_pagination.2.2.2.1 steadyFetch "d" 2 (by omega) (by simp [MAX_PAGES]) hsteady,
    C8_pagination.2.2.2.2.1 emptyFetch "d" 599 none ⟨[], []⟩
      { ack := some "Success", itemBestOffersArray := none, totalNumberOfPages := some 1 }
      rfl (by simp) rfl,
    C8_pagination.2.2.2.2.2.1 gapFetch "d" 598 2 (some 3)
      ⟨[sampleExtracted], [some "111"]⟩ gapPage2 (by decide) (by simp [gapPage2])
      (by decide) (by decide),
    C8_pagination.2.2.2.2.2.2.1 emptyFetch "d" 599 1 none ⟨[], []⟩
      { ack := some "Success", itemBestOffersArray := none, totalNumberOfPages := some 1 }
      rfl (by simp) rfl,
    C8_pagination.2.2.2.2.2.2.2.1 steadyFetch steadyFetchAlt "d" 599 ⟨[], []⟩
      { ack := some "Success", itemBestOffersArray := some [sampleItem]
        totalNumberOfPages := some 2 }
      [sampleItem] hagree rfl rfl (by simp) rfl,
    C8_pagination.2.2.2.2.2.2.2.2 steadyFetch steadyFetchAlt "d" 599 ⟨[], []⟩
      { ack := some "Success", itemBestOffersArray := some [sampleItem]
        totalNumberOfPages := some 2 }
      hagree rfl rfl (by simp)⟩
